import Mathlib

/-!
# OSVR-Vive: the device registry and the driver session of `DriverWrapper.h`

A shallow embedding of `osvr::vive::DeviceHolder` and `osvr::vive::DriverWrapper`
(src/DriverWrapper.h) and theorems about their operations.

* A device pointer (`vr::ITrackedDeviceServerDriver *`) is a natural number,
  `0` being `nullptr`; pointers are compared by identity only.
* `devices_` (a `std::vector` of device pointers) is a `List`.
* `std::uint32_t` values are natural numbers reduced `% 2^32` wherever the
  source narrows or does 32-bit arithmetic.
* The virtual calls `dev->Activate(id)` and `dev->Deactivate()` are recorded,
  in order, in the list of `DriverCall`s every operation returns.
* Undefined behaviour and thrown exceptions are `Except.error` values.
* The collaborators of the session declared in headers that are not among
  the sources (locator, loader, config resolver, provider acquisition, host)
  are the parameter `Native`; the calls made into them are recorded next to
  the device calls, as `SessionCall`s.
-/

namespace osvr.vive

/-- Device pointer `vr::ITrackedDeviceServerDriver *`, identified by its address. -/
abbrev DevicePtr := Nat

/-- The null device pointer. -/
abbrev nullptr : DevicePtr := 0

/-- Number of values of `std::uint32_t`. -/
abbrev UINT32_SIZE : Nat := 2 ^ 32

/-- Conversion `static_cast<std::uint32_t>(n)`. -/
def toUint32 (n : Nat) : Nat := n % UINT32_SIZE

/-- Calls made into a device through its virtual interface. -/
inductive DriverCall where
  | Activate (dev : DevicePtr) (id : Nat)
  | Deactivate (dev : DevicePtr)
  deriving DecidableEq, Repr

/-- Ways a call can fail instead of returning. -/
inductive Fault where
  /-- The exception `std::out_of_range`, thrown by `std::vector::at`. -/
  | out_of_range
  /-- The exception `std::logic_error`. -/
  | logic_error
  /-- Access `v[i]` of a `std::vector` with `i >= v.size()`: undefined behaviour. -/
  | vector_index_past_end
  /-- Dereference `*p` of a null pointer: undefined behaviour. -/
  | null_dereference
  deriving DecidableEq, Repr

/-- Data members of `class DeviceHolder`. -/
structure DeviceHolder where
  deactivateOnShutdown_ : Bool := true
  devices_ : List DevicePtr := []
  deriving DecidableEq, Repr

/-- What a member function leaves behind: its return value, the holder
afterwards, and the device calls it made, in order. -/
structure Outcome (α : Type) where
  ret : α
  holder : DeviceHolder
  calls : List DriverCall
  deriving DecidableEq, Repr

/-- The iterator `std::find(begin(v), end(v), dev)` as an offset from
`begin(v)`: the position of the first element equal to `dev`, or `v.size()`
(that is `end(v)`) when there is none. -/
def std_find (v : List DevicePtr) (dev : DevicePtr) : Nat :=
  v.indexOf dev

namespace DeviceHolder

/-- The constructor `DeviceHolder() = default`. -/
def empty : DeviceHolder := {}

/-- Member `findDevice`: a (found, index) pair. -/
def findDevice (self : DeviceHolder) (dev : DevicePtr) : Bool × Nat :=
  let it := std_find self.devices_ dev
  if it = self.devices_.length then
    (false, 0)
  else
    (true, toUint32 it)

/-- Member `hasDeviceAt`. -/
def hasDeviceAt (self : DeviceHolder) (idx : Nat) : Bool :=
  decide (idx < self.devices_.length) && (self.devices_.getD idx nullptr != nullptr)

/-- Member `getDevice`: `*devices_.at(idx)`. The device reference returned
is identified with the pointer it was made from. -/
def getDevice (self : DeviceHolder) (idx : Nat) : Except Fault DevicePtr :=
  match self.devices_[idx]? with
  | none => .error Fault.out_of_range
  | some p => if p = nullptr then .error Fault.null_dereference else .ok p

/-- Member `reserve`: `devices_.resize(n, nullptr)` when the table is shorter
than `n`. -/
def reserve (self : DeviceHolder) (n : Nat) : Outcome Bool :=
  if self.devices_.length < n then
    { ret := true
      holder := { self with
        devices_ := self.devices_ ++ List.replicate (n - self.devices_.length) nullptr }
      calls := [] }
  else
    { ret := false, holder := self, calls := [] }

/-- Member `addAndActivateDevice`. -/
def addAndActivateDevice (self : DeviceHolder) (dev : DevicePtr) : Outcome (Bool × Nat) :=
  if dev = nullptr ∨ (findDevice self dev).1 = true then
    { ret := (false, 0), holder := self, calls := [] }
  else
    let newId := toUint32 self.devices_.length
    { ret := (true, newId)
      holder := { self with devices_ := self.devices_ ++ [dev] }
      calls := [DriverCall.Activate dev newId] }

/-- The operand `!existing.second` of the comparison in
`addAndActivateDeviceAt`: a `bool`, promoted to an integer (1 or 0) for the
comparison with `idx`. -/
def notSecond (second : Nat) : Nat :=
  if second = 0 then 1 else 0

/-- Member `addAndActivateDeviceAt`, with `idx` a `std::uint32_t`. -/
def addAndActivateDeviceAt (self : DeviceHolder) (dev : DevicePtr) (idx : Nat) :
    Except Fault (Outcome (Bool × Nat)) :=
  if dev = nullptr then
    .ok { ret := (false, 0), holder := self, calls := [] }
  else
    let existing := findDevice self dev
    if existing.1 = true ∧ notSecond existing.2 = idx then
      .ok { ret := (false, existing.2), holder := self, calls := [] }
    else if existing.1 = true then
      .ok { ret := (true, idx), holder := self, calls := [DriverCall.Activate dev idx] }
    else
      let self1 :=
        if ¬ (idx < self.devices_.length) then (reserve self (toUint32 (idx + 1))).holder
        else self
      match self1.devices_[idx]? with
      | none => .error Fault.vector_index_past_end
      | some p =>
        if p ≠ nullptr then
          .ok { ret := (false, 0), holder := self1, calls := [] }
        else
          .ok { ret := (true, idx)
                holder := { self1 with devices_ := self1.devices_.set idx dev }
                calls := [DriverCall.Activate dev idx] }

/-- Member `deactivate`. -/
def deactivate (self : DeviceHolder) (idx : Nat) : Outcome Bool :=
  if idx < self.devices_.length ∧ self.devices_.getD idx nullptr ≠ nullptr then
    { ret := true
      holder := { self with devices_ := self.devices_.set idx nullptr }
      calls := [DriverCall.Deactivate (self.devices_.getD idx nullptr)] }
  else
    { ret := false, holder := self, calls := [] }

/-- The loop `for (auto &dev : devices_)` of `deactivateAll`, over the
remaining elements: the elements afterwards and the calls made. -/
def deactivateAllLoop : List DevicePtr → List DevicePtr × List DriverCall
  | [] => ([], [])
  | dev :: rest =>
    let r := deactivateAllLoop rest
    if dev ≠ nullptr then
      (nullptr :: r.1, DriverCall.Deactivate dev :: r.2)
    else
      (dev :: r.1, r.2)

/-- Member `deactivateAll`. -/
def deactivateAll (self : DeviceHolder) : Outcome Unit :=
  let r := deactivateAllLoop self.devices_
  { ret := (), holder := { self with devices_ := r.1 }, calls := r.2 }

/-- Member `disableDeactivateOnShutdown`. -/
def disableDeactivateOnShutdown (self : DeviceHolder) : DeviceHolder :=
  { self with deactivateOnShutdown_ := false }

/-- The destructor `~DeviceHolder()`: the holder as its body leaves it, and
the calls made. -/
def destructor (self : DeviceHolder) : Outcome Unit :=
  if self.deactivateOnShutdown_ = true then
    deactivateAll self
  else
    { ret := (), holder := self, calls := [] }

/-- Registering the devices of a list one after the other with
`addAndActivateDevice`: the return values in call order, the holder after
the last call, and all calls made. -/
def addAndActivateDevices (self : DeviceHolder) : List DevicePtr → Outcome (List (Bool × Nat))
  | [] => { ret := [], holder := self, calls := [] }
  | dev :: rest =>
    let r := addAndActivateDevice self dev
    let rs := addAndActivateDevices r.holder rest
    { ret := r.ret :: rs.ret, holder := rs.holder, calls := r.calls ++ rs.calls }

/-- The two holders a move leaves behind, and the device calls it made. -/
structure MoveOutcome where
  target : DeviceHolder
  source : DeviceHolder
  calls : List DriverCall
  deriving DecidableEq, Repr

/-- The move constructor `DeviceHolder(DeviceHolder &&other)`: `target` is
the holder constructed, `source` is `other` afterwards (its vector, moved
from, is empty). -/
def moveConstruct (other : DeviceHolder) : MoveOutcome :=
  { target := { devices_ := other.devices_
                deactivateOnShutdown_ := other.deactivateOnShutdown_ }
    source := disableDeactivateOnShutdown { other with devices_ := [] }
    calls := [] }

/-- The move assignment `operator=(DeviceHolder &&other)` when `other` is
this very object (`&other == this`): nothing happens. -/
def moveAssignSelf (self : DeviceHolder) : DeviceHolder :=
  self

/-- The move assignment `operator=(DeviceHolder &&other)` from another
object: `target` is `*this` afterwards, `source` is `other` afterwards (its
vector, moved from, is taken to be empty). -/
def moveAssign (self other : DeviceHolder) : MoveOutcome :=
  let flushed := if self.deactivateOnShutdown_ = true then deactivateAll self
    else { ret := (), holder := self, calls := [] }
  { target := { flushed.holder with
                devices_ := other.devices_
                deactivateOnShutdown_ := other.deactivateOnShutdown_ }
    source := disableDeactivateOnShutdown { other with devices_ := [] }
    calls := flushed.calls }

/-- A call of one of the mutating members of a DeviceHolder. -/
inductive Op where
  | addAndActivateDevice (dev : DevicePtr)
  | addAndActivateDeviceAt (dev : DevicePtr) (idx : Nat)
  | reserve (n : Nat)
  | deactivate (idx : Nat)
  | deactivateAll
  deriving DecidableEq, Repr

/-- The holder after one call, when the call returns. -/
def applyOp (self : DeviceHolder) : Op → Except Fault DeviceHolder
  | .addAndActivateDevice dev => .ok (addAndActivateDevice self dev).holder
  | .addAndActivateDeviceAt dev idx =>
    match addAndActivateDeviceAt self dev idx with
    | .ok out => .ok out.holder
    | .error e => .error e
  | .reserve n => .ok (reserve self n).holder
  | .deactivate idx => .ok (deactivate self idx).holder
  | .deactivateAll => .ok (deactivateAll self).holder

/-- The holder after a sequence of calls, when all of them return. -/
def run (self : DeviceHolder) : List Op → Except Fault DeviceHolder
  | [] => .ok self
  | op :: rest =>
    match applyOp self op with
    | .ok next => run next rest
    | .error e => .error e

/-- No device pointer is held in two different slots of the table. -/
def NoSharedSlot (l : List DevicePtr) : Prop :=
  ∀ (i j : Nat) (d : DevicePtr), l[i]? = some d → l[j]? = some d → d ≠ nullptr → i = j

end DeviceHolder

/-! ## The driver session `DriverWrapper` -/

/-- Pointer `vr::ServerDriverHost *`, identified by its address; `0` is the
null pointer. -/
abbrev HostPtr := Nat

/-- Modelled from the spec: the declaration of `DriverLocationInfo`
(FindDriver.h) is not among the sources. The fields are those of the spec's
data model (DriverLocation: found, driverRoot, driverFile), which are the
ones `DriverWrapper` reads; absence is `found = false`. -/
structure DriverLocationInfo where
  found : Bool := false
  driverRoot : String := ""
  driverFile : String := ""
  deriving DecidableEq, Repr

/-- Modelled from the spec: the declaration of `ConfigDirs` (FindDriver.h)
is not among the sources. The fields are those of the spec's data model
(valid, rootConfigDir, driverConfigDir); a session that never resolved its
config dirs reports them as not valid. -/
structure ConfigDirs where
  valid : Bool := false
  rootConfigDir : String := ""
  driverConfigDir : String := ""
  deriving DecidableEq, Repr

/-- Modelled from the spec: the class `DriverLoader` (DriverLoader.h) is not
among the sources. A loader is the module handle it owns together with the
success state its `explicit operator bool` reports (the module can fail to
open, which is reported by that state and not by a fault). -/
structure DriverLoader where
  handle : Nat
  opened : Bool
  deriving DecidableEq, Repr

/-- The object a non-null `ProviderPtr<vr::IServerTrackedDeviceProvider>`
holds, identified by its address. -/
structure Provider where
  handle : Nat
  deriving DecidableEq, Repr

/-- The collaborators of `DriverWrapper` that are declared in headers not
among the sources (FindDriver.h, DriverLoader.h, GetProvider.h,
ServerDriverHost.h), taken as parameters: what each of them answers. -/
structure Native where
  /-- Result of `findDriver()`. -/
  findDriver : DriverLocationInfo
  /-- Result of `DriverLoader::make(driverRoot, driverFile)`, a
  `std::unique_ptr<DriverLoader>` (`none` is the null pointer). -/
  make : String → String → Option DriverLoader
  /-- Result of `findConfigDirs(driverLocation)`. -/
  findConfigDirs : DriverLocationInfo → ConfigDirs
  /-- Result of `loader.isHMDPresent(rootConfigDir)`. -/
  loaderIsHMDPresent : DriverLoader → String → Bool
  /-- Provider the native entry point yields when `getProvider` is called
  with this loader, host and driver config dir (`none` is the null
  provider). -/
  acquire : Option DriverLoader → HostPtr → String → Option Provider
  /-- Address of the object `new vr::ServerDriverHost` creates. -/
  newServerDriverHost : HostPtr

/-- Calls a session makes into its collaborators and devices. -/
inductive SessionCall where
  | findDriver
  | make (driverRoot driverFile : String)
  | findConfigDirs
  | loaderIsHMDPresent (loader : DriverLoader) (rootConfigDir : String)
  | getProvider (loader : Option DriverLoader) (host : HostPtr) (driverConfigDir : String)
  | setExiting (host : HostPtr)
  | device (call : DriverCall)
  deriving DecidableEq, Repr

/-- Data members of `class DriverWrapper`. -/
structure DriverWrapper where
  owningServerDriverHost_ : Option HostPtr := none
  serverDriverHost_ : HostPtr := 0
  driverLocation_ : DriverLocationInfo := {}
  configDirs_ : ConfigDirs := {}
  loader_ : Option DriverLoader := none
  serverDeviceProvider_ : Option Provider := none
  devices_ : List DevicePtr := []
  deactivateOnShutdown_ : Bool := true
  deriving DecidableEq, Repr

/-- What a member function of a session leaves behind: its return value,
the session afterwards, and the calls it made, in order. -/
structure SessionOutcome (α : Type) where
  ret : α
  session : DriverWrapper
  calls : List SessionCall
  deriving DecidableEq, Repr

/-- Modelled from the spec: `getProvider` (GetProvider.h) is not among the
sources. It is handed the loader by `std::move(loader_)` and consumes it
whatever the outcome, so that the caller no longer holds a loader; the
provider it returns is the one the native entry point yields, or none. The
result is the caller's `loader_` afterwards and the provider. -/
def getProvider (env : Native) (loader : Option DriverLoader) (host : HostPtr)
    (driverConfigDir : String) : Option DriverLoader × Option Provider :=
  (none, env.acquire loader host driverConfigDir)

namespace DriverWrapper

/-- Member `foundDriver`. -/
def foundDriver (self : DriverWrapper) : Bool :=
  self.driverLocation_.found

/-- Member `foundConfigDirs`. -/
def foundConfigDirs (self : DriverWrapper) : Bool :=
  self.configDirs_.valid

/-- The test `static_cast<bool>(loader_) && static_cast<bool>(*loader_)`. -/
def loaderOpened (self : DriverWrapper) : Bool :=
  match self.loader_ with
  | some loader => loader.opened
  | none => false

/-- Member `haveDriverLoaded`. -/
def haveDriverLoaded (self : DriverWrapper) : Bool :=
  loaderOpened self || self.serverDeviceProvider_.isSome

/-- Member `haveServerDeviceHost`. -/
def haveServerDeviceHost (self : DriverWrapper) : Bool :=
  self.serverDriverHost_ != 0

/-- The conversion `explicit operator bool()`. -/
def operatorBool (self : DriverWrapper) : Bool :=
  foundConfigDirs self && haveDriverLoaded self && haveServerDeviceHost self

/-- The body shared by both constructors, run after the host members and
`driverLocation_(findDriver())` have been initialised. -/
def constructBody (env : Native) (self : DriverWrapper) : SessionOutcome Unit :=
  if ¬ foundDriver self = true then
    { ret := (), session := self, calls := [] }
  else
    let self1 := { self with
      loader_ := env.make self.driverLocation_.driverRoot self.driverLocation_.driverFile }
    let calls1 :=
      [SessionCall.make self.driverLocation_.driverRoot self.driverLocation_.driverFile]
    if ¬ haveDriverLoaded self1 = true then
      { ret := (), session := self1, calls := calls1 }
    else
      { ret := ()
        session := { self1 with configDirs_ := env.findConfigDirs self1.driverLocation_ }
        calls := calls1 ++ [SessionCall.findConfigDirs] }

/-- The constructor `DriverWrapper(vr::ServerDriverHost *serverDriverHost)`. -/
def construct (env : Native) (serverDriverHost : HostPtr) : SessionOutcome Unit :=
  let r := constructBody env
    { serverDriverHost_ := serverDriverHost, driverLocation_ := env.findDriver }
  { r with calls := SessionCall.findDriver :: r.calls }

/-- The default constructor `DriverWrapper()`, which makes and owns its
host. -/
def constructDefault (env : Native) : SessionOutcome Unit :=
  let r := constructBody env
    { owningServerDriverHost_ := some env.newServerDriverHost
      serverDriverHost_ := env.newServerDriverHost
      driverLocation_ := env.findDriver }
  { r with calls := SessionCall.findDriver :: r.calls }

/-- Member `isHMDPresent`. -/
def isHMDPresent (env : Native) (self : DriverWrapper) : Except Fault (SessionOutcome Bool) :=
  if ¬ (foundDriver self = true ∧ foundConfigDirs self = true ∧ haveDriverLoaded self = true) then
    .ok { ret := false, session := self, calls := [] }
  else
    match self.loader_ with
    | none => .error Fault.logic_error
    | some loader =>
      .ok { ret := env.loaderIsHMDPresent loader self.configDirs_.rootConfigDir
            session := self
            calls := [SessionCall.loaderIsHMDPresent loader self.configDirs_.rootConfigDir] }

/-- Member `startServerDeviceProvider`. -/
def startServerDeviceProvider (env : Native) (self : DriverWrapper) : SessionOutcome Bool :=
  if ¬ (foundDriver self = true ∧ foundConfigDirs self = true ∧ haveDriverLoaded self = true ∧
      haveServerDeviceHost self = true) then
    { ret := false, session := self, calls := [] }
  else if self.serverDeviceProvider_.isSome = true then
    { ret := true, session := self, calls := [] }
  else
    let r := getProvider env self.loader_ self.serverDriverHost_ self.configDirs_.driverConfigDir
    { ret := r.2.isSome
      session := { self with loader_ := r.1, serverDeviceProvider_ := r.2 }
      calls := [SessionCall.getProvider self.loader_ self.serverDriverHost_
        self.configDirs_.driverConfigDir] }

/-- Member `addAndActivateDevice` of the session. -/
def addAndActivateDevice (self : DriverWrapper) (dev : DevicePtr) :
    Except Fault (SessionOutcome (Bool × Nat)) :=
  let it := std_find self.devices_ dev
  if it ≠ self.devices_.length then
    .ok { ret := (false, 0), session := self, calls := [] }
  else
    let newId := toUint32 self.devices_.length
    if dev = nullptr then
      .error Fault.null_dereference
    else
      .ok { ret := (true, newId)
            session := { self with devices_ := self.devices_ ++ [dev] }
            calls := [SessionCall.device (DriverCall.Activate dev newId)] }

/-- Member `disableDeactivateOnShutdown` of the session. -/
def disableDeactivateOnShutdown (self : DriverWrapper) : DriverWrapper :=
  { self with deactivateOnShutdown_ := false }

/-- The loop `for (auto &dev : devices_) dev->Deactivate();` of `stop`,
over the remaining elements: the calls made. -/
def stopLoop : List DevicePtr → Except Fault (List SessionCall)
  | [] => .ok []
  | dev :: rest =>
    if dev = nullptr then
      .error Fault.null_dereference
    else
      match stopLoop rest with
      | .ok calls => .ok (SessionCall.device (DriverCall.Deactivate dev) :: calls)
      | .error e => .error e

/-- The notification `serverDriverHost_->setExiting()` of `stop`, made when
there is a host. -/
def notifyExiting (self : DriverWrapper) : List SessionCall :=
  if haveServerDeviceHost self = true then [SessionCall.setExiting self.serverDriverHost_]
  else []

/-- Member `stop`. -/
def stop (self : DriverWrapper) : Except Fault (SessionOutcome Unit) :=
  if self.deactivateOnShutdown_ = true then
    match stopLoop self.devices_ with
    | .ok calls =>
      .ok { ret := ()
            session := disableDeactivateOnShutdown self
            calls := notifyExiting self ++ calls }
    | .error e => .error e
  else
    .ok { ret := (), session := self, calls := notifyExiting self }

/-- The destructor `~DriverWrapper()`, whose body is `stop();`. -/
def destructor (self : DriverWrapper) : Except Fault (SessionOutcome Unit) :=
  stop self

/-- The two sessions a move construction leaves behind. -/
structure Moved where
  target : DriverWrapper
  source : DriverWrapper
  deriving DecidableEq, Repr

/-- The move constructor `DriverWrapper(DriverWrapper &&other)`, memberwise
in both of its variants: `target` is the session constructed, `source` is
`other` afterwards. Moved-from smart pointers are null and the moved-from
vector is empty; the raw host pointer and the two flags of plain type are
copied; moved-from strings are taken to be empty. -/
def moveConstruct (other : DriverWrapper) : Moved :=
  { target :=
      { owningServerDriverHost_ := other.owningServerDriverHost_
        serverDriverHost_ := other.serverDriverHost_
        driverLocation_ := other.driverLocation_
        configDirs_ := other.configDirs_
        loader_ := other.loader_
        serverDeviceProvider_ := other.serverDeviceProvider_
        devices_ := other.devices_
        deactivateOnShutdown_ := other.deactivateOnShutdown_ }
    source :=
      { owningServerDriverHost_ := none
        serverDriverHost_ := other.serverDriverHost_
        driverLocation_ := { found := other.driverLocation_.found }
        configDirs_ := { valid := other.configDirs_.valid }
        loader_ := none
        serverDeviceProvider_ := none
        devices_ := []
        deactivateOnShutdown_ := other.deactivateOnShutdown_ } }

/-- A call of one of the members of a session that can change it or fail. -/
inductive Op where
  | isHMDPresent
  | startServerDeviceProvider
  | addAndActivateDevice (dev : DevicePtr)
  | disableDeactivateOnShutdown
  | stop
  deriving DecidableEq, Repr

/-- The session after one call, when the call returns. -/
def applyOp (env : Native) (self : DriverWrapper) : Op → Except Fault DriverWrapper
  | .isHMDPresent =>
    match isHMDPresent env self with
    | .ok out => .ok out.session
    | .error e => .error e
  | .startServerDeviceProvider => .ok (startServerDeviceProvider env self).session
  | .addAndActivateDevice dev =>
    match addAndActivateDevice self dev with
    | .ok out => .ok out.session
    | .error e => .error e
  | .disableDeactivateOnShutdown => .ok (disableDeactivateOnShutdown self)
  | .stop =>
    match stop self with
    | .ok out => .ok out.session
    | .error e => .error e

/-- The session after a sequence of calls, when all of them return. -/
def run (env : Native) (self : DriverWrapper) : List Op → Except Fault DriverWrapper
  | [] => .ok self
  | op :: rest =>
    match applyOp env self op with
    | .ok next => run env next rest
    | .error e => .error e

/-- A session one of the two constructors made, after any sequence of calls
that all returned. -/
def Reachable (env : Native) (s : DriverWrapper) : Prop :=
  (∃ (host : HostPtr) (ops : List Op), run env (construct env host).session ops = .ok s) ∨
  (∃ ops : List Op, run env (constructDefault env).session ops = .ok s)

/-- What holds of every session the constructors and the member calls
produce: it does not hold a loader and a provider together; it holds either
of them only when the driver was found; its device list has no null pointer
and no pointer twice. -/
def Consistent (s : DriverWrapper) : Prop :=
  (s.loader_ = none ∨ s.serverDeviceProvider_ = none) ∧
  ((s.loader_.isSome = true ∨ s.serverDeviceProvider_.isSome = true) → foundDriver s = true) ∧
  (∀ d ∈ s.devices_, d ≠ nullptr) ∧
  s.devices_.Nodup

/-- An environment in which the driver is found, its module opens, its
config dirs resolve and the native entry point yields a provider. -/
def nativeFound : Native :=
  { findDriver := { found := true, driverRoot := "root", driverFile := "file" }
    make := fun _ _ => some { handle := 1, opened := true }
    findConfigDirs := fun _ =>
      { valid := true, rootConfigDir := "config", driverConfigDir := "config/driver" }
    loaderIsHMDPresent := fun _ _ => true
    acquire := fun _ _ _ => some { handle := 2 }
    newServerDriverHost := 9 }

/-- An environment like `nativeFound` in which the native entry point
yields no provider. -/
def nativeNoProvider : Native :=
  { nativeFound with acquire := fun _ _ _ => none }

/-- An environment in which the driver is not found. -/
def nativeNotFound : Native :=
  { nativeFound with findDriver := {} }

end DriverWrapper

/-! ## Identity scan -/

namespace DeviceHolder

theorem toUint32_of_lt {n : Nat} (h : n < UINT32_SIZE) : toUint32 n = n :=
  Nat.mod_eq_of_lt h

theorem findDevice_of_not_mem (self : DeviceHolder) (dev : DevicePtr)
    (h : dev ∉ self.devices_) : findDevice self dev = (false, 0) := by
  simp [findDevice, std_find, List.indexOf_eq_length.2 h]

theorem findDevice_of_mem (self : DeviceHolder) (dev : DevicePtr)
    (h : dev ∈ self.devices_) :
    findDevice self dev = (true, toUint32 (self.devices_.indexOf dev)) := by
  have hlt : self.devices_.indexOf dev < self.devices_.length := List.indexOf_lt_length.2 h
  simp [findDevice, std_find, Nat.ne_of_lt hlt]

theorem findDevice_fst_iff (self : DeviceHolder) (dev : DevicePtr) :
    (findDevice self dev).1 = true ↔ dev ∈ self.devices_ := by
  by_cases h : dev ∈ self.devices_
  · simp [findDevice_of_mem self dev h, h]
  · simp [findDevice_of_not_mem self dev h, h]

/-- The scan stops at the first slot holding the device. -/
theorem indexOf_of_first_slot (dev : DevicePtr) :
    ∀ (l : List DevicePtr) (j : Nat), l[j]? = some dev →
      (∀ i : Nat, i < j → l[i]? ≠ some dev) → l.indexOf dev = j := by
  intro l
  induction l with
  | nil => intro j h _; simp at h
  | cons x rest ih =>
    intro j h hfirst
    cases j with
    | zero =>
      have hx : x = dev := by simpa using h
      rw [hx, List.indexOf_cons_self]
    | succ j =>
      have hx : x ≠ dev := by
        intro hx
        exact hfirst 0 (Nat.succ_pos j) (by simp [hx])
      rw [List.indexOf_cons_ne _ hx]
      congr 1
      apply ih j (by simpa using h)
      intro i hi
      have := hfirst (i + 1) (Nat.succ_lt_succ hi)
      simpa using this

/-- A device held in slot `j` and in no earlier slot is reported by
findDevice at index `j`, for `j` a 32-bit index. -/
theorem findDevice_of_first_slot (self : DeviceHolder) (dev : DevicePtr) (j : Nat)
    (hslot : self.devices_[j]? = some dev)
    (hfirst : ∀ i : Nat, i < j → self.devices_[i]? ≠ some dev) (h32 : j < UINT32_SIZE) :
    findDevice self dev = (true, j) := by
  rw [findDevice_of_mem self dev (List.getElem?_mem hslot),
    indexOf_of_first_slot dev self.devices_ j hslot hfirst, toUint32_of_lt h32]

/-! ## Append registration -/

theorem addAndActivateDevice_fresh (self : DeviceHolder) (dev : DevicePtr)
    (hnn : dev ≠ nullptr) (hfresh : dev ∉ self.devices_) :
    addAndActivateDevice self dev =
      { ret := (true, toUint32 self.devices_.length)
        holder := { self with devices_ := self.devices_ ++ [dev] }
        calls := [DriverCall.Activate dev (toUint32 self.devices_.length)] } := by
  have hf : (findDevice self dev).1 = false := by
    rw [findDevice_of_not_mem self dev hfresh]
  simp [addAndActivateDevice, hnn, hf]

theorem addAndActivateDevice_rejected (self : DeviceHolder) (dev : DevicePtr)
    (h : dev = nullptr ∨ dev ∈ self.devices_) :
    addAndActivateDevice self dev = { ret := (false, 0), holder := self, calls := [] } := by
  have h' : dev = nullptr ∨ (findDevice self dev).1 = true := by
    rcases h with h | h
    · exact Or.inl h
    · exact Or.inr ((findDevice_fst_iff self dev).2 h)
  simp only [addAndActivateDevice, h', if_true]

/-- Registering pairwise-distinct, non-null devices none of which is in the
table yet appends them in order; the call for the device at offset `k`
returns the table length before it, narrowed to 32 bits. -/
theorem addAndActivateDevices_fresh (ds : List DevicePtr) :
    ∀ (self : DeviceHolder), ds.Nodup → (∀ d ∈ ds, d ≠ nullptr) →
      (∀ d ∈ ds, d ∉ self.devices_) →
      (addAndActivateDevices self ds).holder = { self with devices_ := self.devices_ ++ ds } ∧
      (addAndActivateDevices self ds).ret =
        (List.range' self.devices_.length ds.length).map (fun i => (true, toUint32 i)) := by
  induction ds with
  | nil => intro self _ _ _; simp [addAndActivateDevices]
  | cons d rest ih =>
    intro self hnd hnn hfresh
    have hd : d ≠ nullptr := hnn d (List.mem_cons_self _ _)
    have hdf : d ∉ self.devices_ := hfresh d (List.mem_cons_self _ _)
    have hnd' := List.nodup_cons.1 hnd
    have hstep := addAndActivateDevice_fresh self d hd hdf
    have hrest : ∀ x ∈ rest, x ∉ (addAndActivateDevice self d).holder.devices_ := by
      intro x hx
      rw [hstep]
      simp only [List.mem_append, List.mem_singleton, not_or]
      refine ⟨hfresh x (List.mem_cons_of_mem _ hx), ?_⟩
      rintro rfl
      exact hnd'.1 hx
    obtain ⟨ih1, ih2⟩ := ih (addAndActivateDevice self d).holder hnd'.2
      (fun x hx => hnn x (List.mem_cons_of_mem _ hx)) hrest
    constructor
    · simp only [addAndActivateDevices, ih1]
      rw [hstep]
      simp
    · simp only [addAndActivateDevices, ih2]
      rw [hstep]
      simp [List.range'_succ]

/-! ## Registration at a reserved index -/

/-- For a non-null device that findDevice reports at index `j`, the guard
`!existing.second == idx` alone decides the call: it is rejected when `idx`
equals 1 (for `j = 0`) or 0 (for `j ≠ 0`), and otherwise the device is
activated again with `idx`; the table is left as it is either way. -/
theorem addAndActivateDeviceAt_registered (self : DeviceHolder) (dev : DevicePtr) (j idx : Nat)
    (hnn : dev ≠ nullptr) (hreg : findDevice self dev = (true, j)) :
    addAndActivateDeviceAt self dev idx =
      if notSecond j = idx then
        .ok { ret := (false, j), holder := self, calls := [] }
      else
        .ok { ret := (true, idx), holder := self, calls := [DriverCall.Activate dev idx] } := by
  simp only [addAndActivateDeviceAt, hreg, if_neg hnn, true_and, if_true]

theorem notSecond_ne_self (j : Nat) : notSecond j ≠ j := by
  unfold notSecond
  split <;> omega

/-- The table after `reserve(idx + 1)` has been called for an index past
its end, the sum being taken in 32 bits. -/
theorem reserve_succ_devices (self : DeviceHolder) (idx : Nat)
    (hge : ¬ idx < self.devices_.length) (h32 : idx + 1 < UINT32_SIZE) :
    (reserve self (toUint32 (idx + 1))).holder =
      { self with
        devices_ := self.devices_ ++ List.replicate (idx + 1 - self.devices_.length) nullptr } := by
  rw [toUint32_of_lt h32]
  have hlt : self.devices_.length < idx + 1 := by omega
  simp [reserve, hlt]

/-- Closed form of a successful `addAndActivateDeviceAt` for a device that
is not registered, at an index whose slot holds no device. -/
theorem addAndActivateDeviceAt_fresh (self : DeviceHolder) (dev : DevicePtr) (idx : Nat)
    (hnn : dev ≠ nullptr) (hfresh : dev ∉ self.devices_)
    (hfree : hasDeviceAt self idx = false)
    (h32 : idx < self.devices_.length ∨ idx + 1 < UINT32_SIZE) :
    addAndActivateDeviceAt self dev idx =
      .ok { ret := (true, idx)
            holder := { self with
              devices_ := (self.devices_ ++
                List.replicate (idx + 1 - self.devices_.length) nullptr).set idx dev }
            calls := [DriverCall.Activate dev idx] } := by
  have hf : findDevice self dev = (false, 0) := findDevice_of_not_mem self dev hfresh
  by_cases hlt : idx < self.devices_.length
  · have hslot : self.devices_[idx]? = some nullptr := by
      simp only [hasDeviceAt, hlt, decide_True, Bool.true_and, bne_eq_false_iff_eq] at hfree
      rw [List.getElem?_eq_getElem hlt]
      rw [List.getD_eq_getElem _ _ hlt] at hfree
      rw [hfree]
    have hz : idx + 1 - self.devices_.length = 0 := by omega
    simp [addAndActivateDeviceAt, hnn, hf, hlt, hslot, hz]
  · have h32' : idx + 1 < UINT32_SIZE := by
      rcases h32 with h | h
      · exact absurd h hlt
      · exact h
    have hres := reserve_succ_devices self idx hlt h32'
    have hslot : (self.devices_ ++
        List.replicate (idx + 1 - self.devices_.length) nullptr)[idx]? = some nullptr := by
      rw [List.getElem?_append_right (by omega)]
      rw [List.getElem?_replicate]
      have : idx - self.devices_.length < idx + 1 - self.devices_.length := by omega
      simp [this]
    simp only [addAndActivateDeviceAt, if_neg hnn, hf, Bool.false_eq_true, false_and, if_false,
      hlt, not_false_eq_true, if_true, hres, hslot]
    simp

/-- C1 (amended): starting from an empty DeviceHolder, for every list of at
most 2^32 pairwise-distinct non-null devices registered in order with
addAndActivateDevice, the k-th call returns (true, k), and after all calls
findDevice of the k-th device returns (true, k). -/
theorem addAndActivateDevice_sequence_indices (ds : List DevicePtr) (hnd : ds.Nodup)
    (hnn : ∀ d ∈ ds, d ≠ nullptr) (hlen : ds.length ≤ UINT32_SIZE) :
    (addAndActivateDevices empty ds).ret.length = ds.length ∧
    ∀ (k : Nat) (hk : k < ds.length),
      (addAndActivateDevices empty ds).ret[k]? = some (true, k) ∧
      findDevice (addAndActivateDevices empty ds).holder (ds.get ⟨k, hk⟩) = (true, k) := by
  obtain ⟨hholder, hret⟩ := addAndActivateDevices_fresh ds empty hnd hnn
    (fun d _ => by simp [empty])
  have hdev : (addAndActivateDevices empty ds).holder.devices_ = ds := by
    rw [hholder]; simp [empty]
  refine ⟨by rw [hret]; simp, ?_⟩
  intro k hk
  have hk32 : k < UINT32_SIZE := Nat.lt_of_lt_of_le hk hlen
  constructor
  · rw [hret]
    simp [empty, List.getElem?_range', hk, toUint32_of_lt hk32]
  · have hmem : ds.get ⟨k, hk⟩ ∈ (addAndActivateDevices empty ds).holder.devices_ := by
      rw [hdev]; exact List.get_mem ds k hk
    rw [findDevice_of_mem _ _ hmem, hdev]
    have hidx : ds.indexOf (ds.get ⟨k, hk⟩) = k := List.indexOf_getElem hnd k hk
    rw [hidx, toUint32_of_lt hk32]

/-- Three devices registered in order get the indices 0, 1 and 2. -/
theorem addAndActivateDevice_sequence_indices_witness :
    [5, 7, 9].Nodup ∧ (∀ d ∈ [5, 7, 9], d ≠ nullptr) ∧ [5, 7, 9].length ≤ UINT32_SIZE ∧
    (addAndActivateDevices empty [5, 7, 9]).ret.length = 3 ∧
    ∀ (k : Nat) (hk : k < [5, 7, 9].length),
      (addAndActivateDevices empty [5, 7, 9]).ret[k]? = some (true, k) ∧
      findDevice (addAndActivateDevices empty [5, 7, 9]).holder ([5, 7, 9].get ⟨k, hk⟩) =
        (true, k) :=
  ⟨by decide, by decide, by decide,
    addAndActivateDevice_sequence_indices [5, 7, 9] (by decide) (by decide) (by decide)⟩

/-- C1 fails for a list of 2^32 + 1 devices: the devices 1, 2, ..., 2^32 + 1
are pairwise distinct and non-null, yet the call for the last one (the call
number 2^32, counting from 0) returns (true, 0), the index the first call
returned, and findDevice reports index 0 for it afterwards. -/
theorem addAndActivateDevice_index_wraps :
    (List.range' 1 (UINT32_SIZE + 1)).Nodup ∧
    (∀ d ∈ List.range' 1 (UINT32_SIZE + 1), d ≠ nullptr) ∧
    (addAndActivateDevices empty (List.range' 1 (UINT32_SIZE + 1))).ret[UINT32_SIZE]? =
      some (true, 0) ∧
    (addAndActivateDevices empty (List.range' 1 (UINT32_SIZE + 1))).ret[UINT32_SIZE]? ≠
      some (true, UINT32_SIZE) ∧
    findDevice (addAndActivateDevices empty (List.range' 1 (UINT32_SIZE + 1))).holder
      (UINT32_SIZE + 1) = (true, 0) := by
  have hnd : (List.range' 1 (UINT32_SIZE + 1)).Nodup := List.nodup_range' 1 (UINT32_SIZE + 1)
  have hnn : ∀ d ∈ List.range' 1 (UINT32_SIZE + 1), d ≠ nullptr := by
    intro d hd
    have := (List.mem_range'_1.1 hd).1
    exact Nat.pos_iff_ne_zero.1 this
  obtain ⟨hholder, hret⟩ := addAndActivateDevices_fresh (List.range' 1 (UINT32_SIZE + 1)) empty
    hnd hnn (fun d _ => by simp [empty])
  have hval : (addAndActivateDevices empty (List.range' 1 (UINT32_SIZE + 1))).ret[UINT32_SIZE]? =
      some (true, 0) := by
    rw [hret]
    simp [empty, List.getElem?_range', toUint32]
  refine ⟨hnd, hnn, hval, ?_, ?_⟩
  · rw [hval]
    simp
  · have hmem : UINT32_SIZE + 1 ∈
        (addAndActivateDevices empty (List.range' 1 (UINT32_SIZE + 1))).holder.devices_ := by
      rw [hholder]
      simp [empty, List.mem_range'_1]
    rw [findDevice_of_mem _ _ hmem, hholder]
    have hidx : (List.range' 1 (UINT32_SIZE + 1)).indexOf (UINT32_SIZE + 1) = UINT32_SIZE := by
      have h := List.indexOf_getElem hnd UINT32_SIZE (by simp)
      simpa [List.getElem_range', Nat.add_comm] using h
    simp only [empty, List.nil_append]
    rw [hidx]
    simp [toUint32]

/-- C2: for every DeviceHolder state and every device that is null or
already present in some slot, addAndActivateDevice returns (false, 0),
makes no Activate call and leaves the holder unchanged, so that findDevice
of the device returns the same result before and after the call. -/
theorem addAndActivateDevice_null_or_present (self : DeviceHolder) (dev : DevicePtr)
    (h : dev = nullptr ∨ ∃ i : Nat, self.devices_[i]? = some dev) :
    (addAndActivateDevice self dev).ret = (false, 0) ∧
    (addAndActivateDevice self dev).calls = [] ∧
    (addAndActivateDevice self dev).holder = self ∧
    findDevice (addAndActivateDevice self dev).holder dev = findDevice self dev := by
  have h' : dev = nullptr ∨ dev ∈ self.devices_ := by
    rcases h with h | ⟨i, hi⟩
    · exact Or.inl h
    · exact Or.inr (List.getElem?_mem hi)
  rw [addAndActivateDevice_rejected self dev h']
  simp

/-- A device held in slot 1 is rejected when registered again. -/
theorem addAndActivateDevice_null_or_present_witness :
    ((7 : DevicePtr) = nullptr ∨
      ∃ i : Nat, ({ devices_ := [5, 7] } : DeviceHolder).devices_[i]? = some 7) ∧
    (addAndActivateDevice { devices_ := [5, 7] } 7).ret = (false, 0) ∧
    (addAndActivateDevice { devices_ := [5, 7] } 7).calls = [] ∧
    (addAndActivateDevice { devices_ := [5, 7] } 7).holder = { devices_ := [5, 7] } ∧
    findDevice (addAndActivateDevice { devices_ := [5, 7] } 7).holder 7 =
      findDevice { devices_ := [5, 7] } 7 :=
  ⟨Or.inr ⟨1, rfl⟩,
    addAndActivateDevice_null_or_present { devices_ := [5, 7] } 7 (Or.inr ⟨1, rfl⟩)⟩

/-- C3: a non-null device registered at index 0 and offered again at index 2
ought to be rejected with (false, 0) and no Activate call; the code accepts
it instead: findDevice reports the device at index 0, and
addAndActivateDeviceAt returns (true, 2) after calling Activate(2) on it,
the table still holding the device in slot 0 only. -/
theorem addAndActivateDeviceAt_other_index_accepted :
    findDevice { devices_ := [7] } 7 = (true, 0) ∧
    addAndActivateDeviceAt { devices_ := [7] } 7 2 =
      .ok { ret := (true, 2)
            holder := { devices_ := [7] }
            calls := [DriverCall.Activate 7 2] } :=
  ⟨rfl, rfl⟩

/-- What the code does for a registered device offered at another index:
the call is rejected, reporting the existing index `j`, only for `idx = 1`
when `j = 0` and for `idx = 0` when `j ≠ 0`; for every other `idx ≠ j` the
device is activated again with `idx`. -/
theorem addAndActivateDeviceAt_other_index (self : DeviceHolder) (dev : DevicePtr) (j idx : Nat)
    (hnn : dev ≠ nullptr) (hreg : findDevice self dev = (true, j)) :
    ((j = 0 ∧ idx = 1) ∨ (j ≠ 0 ∧ idx = 0) →
      addAndActivateDeviceAt self dev idx =
        .ok { ret := (false, j), holder := self, calls := [] }) ∧
    (¬ ((j = 0 ∧ idx = 1) ∨ (j ≠ 0 ∧ idx = 0)) →
      addAndActivateDeviceAt self dev idx =
        .ok { ret := (true, idx), holder := self, calls := [DriverCall.Activate dev idx] }) := by
  rw [addAndActivateDeviceAt_registered self dev j idx hnn hreg]
  unfold notSecond
  constructor
  · rintro (⟨h0, h1⟩ | ⟨h0, h1⟩)
    · simp [h0, h1]
    · simp [h0, h1]
  · intro h
    have : ¬ ((if j = 0 then 1 else 0) = idx) := by
      intro heq
      apply h
      split at heq
      · left; omega
      · right; omega
    simp [this]

/-- C4: the index 4294967295 is a 32-bit index past the end of the empty
table, and the device 7 is non-null and not registered, so the call ought to
return (true, 4294967295) and leave a table of 2^32 slots; in the code
`idx + 1` wraps to 0, `reserve(0)` grows nothing, and `devices_[idx]` reads
past the end of the table. -/
theorem addAndActivateDeviceAt_max_index_past_end :
    toUint32 (4294967295 + 1) = 0 ∧
    (reserve empty (toUint32 (4294967295 + 1))).holder = empty ∧
    hasDeviceAt empty 4294967295 = false ∧
    addAndActivateDeviceAt empty 7 4294967295 = .error Fault.vector_index_past_end :=
  ⟨rfl, rfl, rfl, rfl⟩

/-- Registration at a free index that does not wrap: for an index below
4294967295 (or any index inside the table) whose slot holds no device, a non-null device that is
not registered is accepted with (true, idx) and one Activate(idx) call; the
table gets the length max(old length, idx + 1), slot idx holds the device,
the other old slots are unchanged and the other new slots are empty. -/
theorem addAndActivateDeviceAt_unoccupied (self : DeviceHolder) (dev : DevicePtr) (idx : Nat)
    (hnn : dev ≠ nullptr) (hfresh : dev ∉ self.devices_)
    (hfree : hasDeviceAt self idx = false)
    (h32 : idx < self.devices_.length ∨ idx + 1 < UINT32_SIZE) :
    ∃ out, addAndActivateDeviceAt self dev idx = .ok out ∧
      out.ret = (true, idx) ∧
      out.calls = [DriverCall.Activate dev idx] ∧
      out.holder.deactivateOnShutdown_ = self.deactivateOnShutdown_ ∧
      out.holder.devices_.length = max self.devices_.length (idx + 1) ∧
      out.holder.devices_[idx]? = some dev ∧
      (∀ i : Nat, i < self.devices_.length → i ≠ idx →
        out.holder.devices_[i]? = self.devices_[i]?) ∧
      (∀ i : Nat, self.devices_.length ≤ i → i < idx + 1 → i ≠ idx →
        out.holder.devices_[i]? = some nullptr) := by
  refine ⟨_, addAndActivateDeviceAt_fresh self dev idx hnn hfresh hfree h32, rfl, rfl, rfl,
    ?_, ?_, ?_, ?_⟩
  · simp only [List.length_set, List.length_append, List.length_replicate]
    omega
  · rw [List.getElem?_set_self]
    simp only [List.length_append, List.length_replicate]
    omega
  · intro i hi hne
    rw [List.getElem?_set_ne (Ne.symm hne), List.getElem?_append_left hi]
  · intro i hge hlt hne
    rw [List.getElem?_set_ne (Ne.symm hne), List.getElem?_append_right hge,
      List.getElem?_replicate]
    have : i - self.devices_.length < idx + 1 - self.devices_.length := by omega
    simp [this]

/-- After `reserve(5)` on an empty registry slot 3 is free, and registering
a device there fills slot 3 only. -/
theorem addAndActivateDeviceAt_unoccupied_witness :
    (7 : DevicePtr) ≠ nullptr ∧ 7 ∉ (reserve empty 5).holder.devices_ ∧
    hasDeviceAt (reserve empty 5).holder 3 = false ∧
    ∃ out, addAndActivateDeviceAt (reserve empty 5).holder 7 3 = .ok out ∧
      out.ret = (true, 3) ∧
      out.calls = [DriverCall.Activate 7 3] ∧
      out.holder.deactivateOnShutdown_ = (reserve empty 5).holder.deactivateOnShutdown_ ∧
      out.holder.devices_.length = max (reserve empty 5).holder.devices_.length (3 + 1) ∧
      out.holder.devices_[3]? = some 7 ∧
      (∀ i : Nat, i < (reserve empty 5).holder.devices_.length → i ≠ 3 →
        out.holder.devices_[i]? = (reserve empty 5).holder.devices_[i]?) ∧
      (∀ i : Nat, (reserve empty 5).holder.devices_.length ≤ i → i < 3 + 1 → i ≠ 3 →
        out.holder.devices_[i]? = some nullptr) :=
  ⟨by decide, by decide, by decide,
    addAndActivateDeviceAt_unoccupied (reserve empty 5).holder 7 3 (by decide) (by decide)
      (by decide) (Or.inl (by decide))⟩

/-- C5: for every DeviceHolder state in which slot idx is occupied by a
device d, and every non-null device d2 different from d that is not
registered, addAndActivateDeviceAt(d2, idx) returns not-accepted, makes no
Activate call and leaves the holder unchanged. -/
theorem addAndActivateDeviceAt_occupied_rejected (self : DeviceHolder) (d d2 : DevicePtr)
    (idx : Nat) (hocc : self.devices_[idx]? = some d) (hd : d ≠ nullptr)
    (hd2 : d2 ≠ nullptr) (_hne : d2 ≠ d) (hfresh : d2 ∉ self.devices_) :
    addAndActivateDeviceAt self d2 idx =
      .ok { ret := (false, 0), holder := self, calls := [] } ∧
    self.devices_[idx]? = some d := by
  have hf : findDevice self d2 = (false, 0) := findDevice_of_not_mem self d2 hfresh
  have hlt : idx < self.devices_.length := by
    by_contra hge
    rw [List.getElem?_eq_none (by omega)] at hocc
    exact Option.noConfusion hocc
  refine ⟨?_, hocc⟩
  simp [addAndActivateDeviceAt, hd2, hf, hlt, hocc, hd]

/-- Slot 3 holds device 7; device 8 is refused there. -/
theorem addAndActivateDeviceAt_occupied_rejected_witness :
    ({ devices_ := [0, 0, 0, 7] } : DeviceHolder).devices_[3]? = some 7 ∧
    (7 : DevicePtr) ≠ nullptr ∧ (8 : DevicePtr) ≠ nullptr ∧ (8 : DevicePtr) ≠ 7 ∧
    8 ∉ ({ devices_ := [0, 0, 0, 7] } : DeviceHolder).devices_ ∧
    addAndActivateDeviceAt { devices_ := [0, 0, 0, 7] } 8 3 =
      .ok { ret := (false, 0), holder := { devices_ := [0, 0, 0, 7] }, calls := [] } ∧
    ({ devices_ := [0, 0, 0, 7] } : DeviceHolder).devices_[3]? = some 7 :=
  ⟨rfl, by decide, by decide, by decide, by decide,
    addAndActivateDeviceAt_occupied_rejected { devices_ := [0, 0, 0, 7] } 7 8 3 rfl
      (by decide) (by decide) (by decide) (by decide)⟩

/-- C6: for every DeviceHolder state and every non-null device that
findDevice reports at index j, addAndActivateDeviceAt with the same index j
returns (true, j), calls Activate(j) on the device exactly once and leaves
the holder unchanged, for every j, 0 and 1 included. -/
theorem addAndActivateDeviceAt_same_index (self : DeviceHolder) (dev : DevicePtr) (j : Nat)
    (hnn : dev ≠ nullptr) (hreg : findDevice self dev = (true, j)) :
    addAndActivateDeviceAt self dev j =
      .ok { ret := (true, j), holder := self, calls := [DriverCall.Activate dev j] } := by
  rw [addAndActivateDeviceAt_registered self dev j j hnn hreg, if_neg (notSecond_ne_self j)]

/-- A device registered at index 1 is activated again at index 1. -/
theorem addAndActivateDeviceAt_same_index_witness :
    (7 : DevicePtr) ≠ nullptr ∧ findDevice { devices_ := [5, 7] } 7 = (true, 1) ∧
    addAndActivateDeviceAt { devices_ := [5, 7] } 7 1 =
      .ok { ret := (true, 1)
            holder := { devices_ := [5, 7] }
            calls := [DriverCall.Activate 7 1] } :=
  ⟨by decide, by decide,
    addAndActivateDeviceAt_same_index { devices_ := [5, 7] } 7 1 (by decide) (by decide)⟩

/-! ## Queries, deactivation and teardown -/

theorem hasDeviceAt_iff (self : DeviceHolder) (idx : Nat) :
    hasDeviceAt self idx = true ↔ ∃ d, self.devices_[idx]? = some d ∧ d ≠ nullptr := by
  by_cases hlt : idx < self.devices_.length
  · simp [hasDeviceAt, hlt, List.getD_eq_getElem, List.getElem?_eq_getElem]
  · simp [hasDeviceAt, hlt, List.getElem?_eq_none (Nat.le_of_not_lt hlt)]

/-- After `reserve(n)` on an empty registry, registering a non-null device
at an index below `n` succeeds and makes that slot the only occupied one. -/
theorem reserve_then_addAndActivateDeviceAt (n idx : Nat) (dev : DevicePtr)
    (hnn : dev ≠ nullptr) (hidx : idx < n) :
    (∀ i, hasDeviceAt (reserve empty n).holder i = false) ∧
    ∃ out, addAndActivateDeviceAt (reserve empty n).holder dev idx = .ok out ∧
      out.ret = (true, idx) ∧
      out.holder.devices_.length = n ∧
      ∀ i, hasDeviceAt out.holder i = decide (i = idx) := by
  have hpos : 0 < n := by omega
  have hdev : (reserve empty n).holder.devices_ = List.replicate n nullptr := by
    simp [reserve, empty, hpos]
  have hnone : ∀ i, hasDeviceAt (reserve empty n).holder i = false := by
    intro i
    rw [Bool.eq_false_iff]
    intro h
    obtain ⟨d, hd, hd0⟩ := (hasDeviceAt_iff _ i).1 h
    rw [hdev] at hd
    exact hd0 (List.eq_of_mem_replicate (List.getElem?_mem hd))
  have hfresh : dev ∉ (reserve empty n).holder.devices_ := by
    rw [hdev]
    intro h
    exact hnn (List.eq_of_mem_replicate h)
  have hlen : idx < (reserve empty n).holder.devices_.length := by
    rw [hdev]; simpa using hidx
  refine ⟨hnone, _, addAndActivateDeviceAt_fresh _ dev idx hnn hfresh (hnone idx) (Or.inl hlen),
    rfl, ?_, ?_⟩
  · simp only [hdev, List.length_set, List.length_append, List.length_replicate]
    omega
  · intro i
    have hz : idx + 1 - n = 0 := by omega
    by_cases hi : i = idx
    · subst hi
      simp only [decide_True]
      rw [hasDeviceAt_iff]
      refine ⟨dev, ?_, hnn⟩
      simp only [hdev, List.length_replicate, hz, List.replicate_zero, List.append_nil]
      rw [List.getElem?_set_self]
      simpa using hidx
    · simp only [hi, decide_False]
      rw [Bool.eq_false_iff]
      intro h
      obtain ⟨d, hd, hd0⟩ := (hasDeviceAt_iff _ i).1 h
      simp only [hdev, List.length_replicate, hz, List.replicate_zero, List.append_nil] at hd
      rw [List.getElem?_set_ne (Ne.symm hi)] at hd
      exact hd0 (List.eq_of_mem_replicate (List.getElem?_mem hd))

/-- The loop of `deactivateAll` empties every slot and calls Deactivate on
the devices of the occupied slots, in slot order. -/
theorem deactivateAllLoop_eq (l : List DevicePtr) :
    deactivateAllLoop l =
      (List.replicate l.length nullptr,
        (l.filter (fun d => d != nullptr)).map DriverCall.Deactivate) := by
  induction l with
  | nil => rfl
  | cons d rest ih =>
    by_cases hd : d = nullptr
    · simp [deactivateAllLoop, ih, hd, List.replicate_succ]
    · simp [deactivateAllLoop, ih, hd, List.replicate_succ]

/-- C7: for every DeviceHolder state and every index: if hasDeviceAt(idx)
holds, deactivate(idx) returns true, calls Deactivate exactly once, on the
device in that slot, and afterwards hasDeviceAt(idx) is false while the
table length, every other slot and the flag are unchanged; if
hasDeviceAt(idx) does not hold, deactivate(idx) returns false, makes no call
and leaves the holder unchanged. -/
theorem deactivate_spec (self : DeviceHolder) (idx : Nat) :
    (hasDeviceAt self idx = true →
      (deactivate self idx).ret = true ∧
      (∃ d, self.devices_[idx]? = some d ∧
        (deactivate self idx).calls = [DriverCall.Deactivate d]) ∧
      hasDeviceAt (deactivate self idx).holder idx = false ∧
      (deactivate self idx).holder.devices_.length = self.devices_.length ∧
      (∀ i : Nat, i ≠ idx → (deactivate self idx).holder.devices_[i]? = self.devices_[i]?) ∧
      (deactivate self idx).holder.deactivateOnShutdown_ = self.deactivateOnShutdown_) ∧
    (hasDeviceAt self idx = false →
      deactivate self idx = { ret := false, holder := self, calls := [] }) := by
  constructor
  · intro h
    have hcond : idx < self.devices_.length ∧ self.devices_.getD idx nullptr ≠ nullptr := by
      simpa [hasDeviceAt] using h
    have hlt := hcond.1
    have hdef : deactivate self idx =
        { ret := true
          holder := { self with devices_ := self.devices_.set idx nullptr }
          calls := [DriverCall.Deactivate (self.devices_.getD idx nullptr)] } := by
      simp only [deactivate, if_pos hcond]
    rw [hdef]
    refine ⟨rfl, ⟨self.devices_.getD idx nullptr, ?_, rfl⟩, ?_, ?_, ?_, rfl⟩
    · rw [List.getD_eq_getElem _ _ hlt, List.getElem?_eq_getElem hlt]
    · simp [hasDeviceAt, hlt]
    · simp
    · intro i hi
      exact List.getElem?_set_ne (Ne.symm hi)
  · intro h
    have hcond : ¬ (idx < self.devices_.length ∧ self.devices_.getD idx nullptr ≠ nullptr) := by
      intro hc
      have : hasDeviceAt self idx = true := by
        simpa [hasDeviceAt] using hc
      rw [h] at this
      exact Bool.noConfusion this
    simp only [deactivate, if_neg hcond]

/-- C8: for every DeviceHolder state, the destructor run with the
deactivate-on-shutdown flag still enabled runs deactivateAll, which calls
Deactivate exactly once for each occupied slot (on the device it holds, in
slot order), keeps the table length and leaves every slot empty; after
disableDeactivateOnShutdown() the destructor makes no call and leaves the
slots as they were. -/
theorem destructor_spec (self : DeviceHolder) :
    (self.deactivateOnShutdown_ = true →
      destructor self = deactivateAll self ∧
      (destructor self).calls =
        (self.devices_.filter (fun d => d != nullptr)).map DriverCall.Deactivate ∧
      (destructor self).calls.length = self.devices_.countP (fun d => d != nullptr) ∧
      (destructor self).holder.devices_.length = self.devices_.length ∧
      (∀ i : Nat, i < self.devices_.length →
        (destructor self).holder.devices_[i]? = some nullptr) ∧
      (∀ i : Nat, hasDeviceAt (destructor self).holder i = false)) ∧
    ((disableDeactivateOnShutdown self).deactivateOnShutdown_ = false ∧
      (disableDeactivateOnShutdown self).devices_ = self.devices_ ∧
      (destructor (disableDeactivateOnShutdown self)).calls = [] ∧
      (destructor (disableDeactivateOnShutdown self)).holder.devices_ = self.devices_) ∧
    (self.deactivateOnShutdown_ = false →
      destructor self = { ret := (), holder := self, calls := [] }) := by
  constructor
  · intro hflag
    have hdef : destructor self = deactivateAll self := by
      simp only [destructor, if_pos hflag]
    have hdev : (destructor self).holder.devices_ = List.replicate self.devices_.length nullptr := by
      rw [hdef]; simp [deactivateAll, deactivateAllLoop_eq]
    have hcalls : (destructor self).calls =
        (self.devices_.filter (fun d => d != nullptr)).map DriverCall.Deactivate := by
      rw [hdef]; simp [deactivateAll, deactivateAllLoop_eq]
    refine ⟨hdef, hcalls, ?_, ?_, ?_, ?_⟩
    · rw [hcalls, List.length_map, List.countP_eq_length_filter]
    · rw [hdev, List.length_replicate]
    · intro i hi
      rw [hdev, List.getElem?_replicate]
      simp [hi]
    · intro i
      rw [Bool.eq_false_iff]
      intro h
      obtain ⟨d, hd, hd0⟩ := (hasDeviceAt_iff _ i).1 h
      rw [hdev] at hd
      exact hd0 (List.eq_of_mem_replicate (List.getElem?_mem hd))
  · constructor
    · simp [destructor, disableDeactivateOnShutdown]
    · intro hflag
      simp [destructor, hflag]

/-- A holder with devices in slots 0 and 2, torn down with the flag enabled. -/
theorem destructor_spec_witness :
    destructor { devices_ := [3, 0, 4] } =
      { ret := ()
        holder := { devices_ := [0, 0, 0] }
        calls := [DriverCall.Deactivate 3, DriverCall.Deactivate 4] } ∧
    destructor (disableDeactivateOnShutdown { devices_ := [3, 0, 4] }) =
      { ret := ()
        holder := { deactivateOnShutdown_ := false, devices_ := [3, 0, 4] }
        calls := [] } ∧
    (destructor { devices_ := [3, 0, 4] } = deactivateAll { devices_ := [3, 0, 4] } ∧
      (destructor { devices_ := [3, 0, 4] }).calls.length = 2 ∧
      destructor { deactivateOnShutdown_ := false, devices_ := [3, 0, 4] } =
        { ret := ()
          holder := { deactivateOnShutdown_ := false, devices_ := [3, 0, 4] }
          calls := [] }) :=
  ⟨by decide, by decide,
    ((destructor_spec { devices_ := [3, 0, 4] }).1 rfl).1,
    ((destructor_spec { devices_ := [3, 0, 4] }).1 rfl).2.2.1,
    (destructor_spec { deactivateOnShutdown_ := false, devices_ := [3, 0, 4] }).2.2 rfl⟩

/-- A holder with devices in slots 0 and 2: slot 2 is deactivated, slot 1
has nothing to deactivate. -/
theorem deactivate_spec_witness :
    hasDeviceAt { devices_ := [3, 0, 4] } 2 = true ∧
    (deactivate { devices_ := [3, 0, 4] } 2).ret = true ∧
    hasDeviceAt (deactivate { devices_ := [3, 0, 4] } 2).holder 2 = false ∧
    hasDeviceAt { devices_ := [3, 0, 4] } 1 = false ∧
    deactivate { devices_ := [3, 0, 4] } 1 =
      { ret := false, holder := { devices_ := [3, 0, 4] }, calls := [] } :=
  ⟨rfl, ((deactivate_spec { devices_ := [3, 0, 4] } 2).1 rfl).1,
    ((deactivate_spec { devices_ := [3, 0, 4] } 2).1 rfl).2.2.1,
    rfl, (deactivate_spec { devices_ := [3, 0, 4] } 1).2 rfl⟩

/-- C9: for every DeviceHolder state with table length L and every n,
reserve(n) leaves a table of length max(L, n) in which every slot below L
holds what it held before and every slot from L up to n is empty, makes no
Activate or Deactivate call, leaves the flag alone, and returns true if and
only if L < n. -/
theorem reserve_spec (self : DeviceHolder) (n : Nat) :
    (reserve self n).holder.devices_.length = max self.devices_.length n ∧
    (∀ i : Nat, i < self.devices_.length →
      (reserve self n).holder.devices_[i]? = self.devices_[i]?) ∧
    (∀ i : Nat, self.devices_.length ≤ i → i < n →
      (reserve self n).holder.devices_[i]? = some nullptr) ∧
    (reserve self n).calls = [] ∧
    (reserve self n).holder.deactivateOnShutdown_ = self.deactivateOnShutdown_ ∧
    ((reserve self n).ret = true ↔ self.devices_.length < n) := by
  by_cases hlt : self.devices_.length < n
  · have hdef : reserve self n =
        { ret := true
          holder := { self with
            devices_ := self.devices_ ++ List.replicate (n - self.devices_.length) nullptr }
          calls := [] } := by
      simp only [reserve, if_pos hlt]
    rw [hdef]
    refine ⟨?_, ?_, ?_, rfl, rfl, ?_⟩
    · simp only [List.length_append, List.length_replicate]
      omega
    · intro i hi
      exact List.getElem?_append_left hi
    · intro i hge hin
      rw [List.getElem?_append_right hge, List.getElem?_replicate]
      have : i - self.devices_.length < n - self.devices_.length := by omega
      simp [this]
    · simp [hlt]
  · have hdef : reserve self n = { ret := false, holder := self, calls := [] } := by
      simp only [reserve, if_neg hlt]
    rw [hdef]
    refine ⟨?_, ?_, ?_, rfl, rfl, ?_⟩
    · simp only
      omega
    · intro i _
      rfl
    · intro i hge hin
      omega
    · simp [hlt]

/-- C10: slot 0 of a one-slot table is in range and empty, so getDevice(0)
ought to fail with the out-of-range condition; in the code
`devices_.at(0)` succeeds, yielding the null pointer, which is then
dereferenced, and no out-of-range condition is raised. -/
theorem getDevice_empty_slot_null_dereference :
    hasDeviceAt { devices_ := [nullptr] } 0 = false ∧
    getDevice { devices_ := [nullptr] } 0 = .error Fault.null_dereference ∧
    getDevice { devices_ := [nullptr] } 0 ≠ .error Fault.out_of_range :=
  ⟨rfl, rfl, fun h => Fault.noConfusion (Except.error.inj h)⟩

/-- What getDevice does in each case: the device of an occupied slot is
returned; an index past the end of the table raises the out-of-range
condition; an empty slot inside the table is a null dereference. -/
theorem getDevice_cases (self : DeviceHolder) (idx : Nat) :
    (hasDeviceAt self idx = true →
      ∃ d, self.devices_[idx]? = some d ∧ getDevice self idx = .ok d) ∧
    (self.devices_.length ≤ idx → getDevice self idx = .error Fault.out_of_range) ∧
    (idx < self.devices_.length → hasDeviceAt self idx = false →
      getDevice self idx = .error Fault.null_dereference) := by
  refine ⟨?_, ?_, ?_⟩
  · intro h
    obtain ⟨d, hd, hd0⟩ := (hasDeviceAt_iff self idx).1 h
    exact ⟨d, hd, by simp [getDevice, hd, hd0]⟩
  · intro hge
    simp [getDevice, List.getElem?_eq_none hge]
  · intro hlt hno
    have hslot : self.devices_[idx]? = some nullptr := by
      simp only [hasDeviceAt, hlt, decide_True, Bool.true_and, bne_eq_false_iff_eq] at hno
      rw [List.getElem?_eq_getElem hlt]
      rw [List.getD_eq_getElem _ _ hlt] at hno
      rw [hno]
    simp [getDevice, hslot]

/-! ## Uniqueness of registered devices -/

theorem noSharedSlot_nil : NoSharedSlot [] := by
  intro i j d hi
  simp at hi

theorem getElem?_append_singleton_cases (l : List DevicePtr) (dev d : DevicePtr) (i : Nat)
    (h : (l ++ [dev])[i]? = some d) : l[i]? = some d ∨ (i = l.length ∧ d = dev) := by
  by_cases hi : i < l.length
  · rw [List.getElem?_append_left hi] at h
    exact Or.inl h
  · rw [List.getElem?_append_right (Nat.le_of_not_lt hi)] at h
    right
    cases hk : i - l.length with
    | zero =>
      rw [hk] at h
      refine ⟨by omega, ?_⟩
      simpa using h.symm
    | succ k =>
      rw [hk] at h
      simp at h

theorem noSharedSlot_append_fresh (l : List DevicePtr) (dev : DevicePtr)
    (h : NoSharedSlot l) (hfresh : dev ∉ l) : NoSharedSlot (l ++ [dev]) := by
  intro i j d hi hj hd
  rcases getElem?_append_singleton_cases l dev d i hi with hi' | ⟨hi', hdi⟩
  · rcases getElem?_append_singleton_cases l dev d j hj with hj' | ⟨_, hdj⟩
    · exact h i j d hi' hj' hd
    · exact absurd (hdj ▸ List.getElem?_mem hi') hfresh
  · rcases getElem?_append_singleton_cases l dev d j hj with hj' | ⟨hj', _⟩
    · exact absurd (hdi ▸ List.getElem?_mem hj') hfresh
    · omega

theorem getElem?_append_replicate_cases (l : List DevicePtr) (k : Nat) (d : DevicePtr) (i : Nat)
    (h : (l ++ List.replicate k nullptr)[i]? = some d) : l[i]? = some d ∨ d = nullptr := by
  by_cases hi : i < l.length
  · rw [List.getElem?_append_left hi] at h
    exact Or.inl h
  · rw [List.getElem?_append_right (Nat.le_of_not_lt hi)] at h
    exact Or.inr (List.eq_of_mem_replicate (List.getElem?_mem h))

theorem noSharedSlot_append_replicate (l : List DevicePtr) (k : Nat) (h : NoSharedSlot l) :
    NoSharedSlot (l ++ List.replicate k nullptr) := by
  intro i j d hi hj hd
  rcases getElem?_append_replicate_cases l k d i hi with hi' | hi'
  · rcases getElem?_append_replicate_cases l k d j hj with hj' | hj'
    · exact h i j d hi' hj' hd
    · exact absurd hj' hd
  · exact absurd hi' hd

theorem getElem?_set_cases (l : List DevicePtr) (idx : Nat) (v d : DevicePtr) (i : Nat)
    (h : (l.set idx v)[i]? = some d) : (i ≠ idx ∧ l[i]? = some d) ∨ (i = idx ∧ d = v) := by
  by_cases hi : i = idx
  · right
    subst hi
    refine ⟨rfl, ?_⟩
    have hmem := List.getElem?_mem h
    by_cases hlt : i < l.length
    · rw [List.getElem?_set_self hlt] at h
      exact (Option.some.inj h).symm
    · rw [List.getElem?_eq_none (by simp; omega)] at h
      exact Option.noConfusion h
  · left
    rw [List.getElem?_set_ne (Ne.symm hi)] at h
    exact ⟨hi, h⟩

theorem noSharedSlot_set_null (l : List DevicePtr) (idx : Nat) (h : NoSharedSlot l) :
    NoSharedSlot (l.set idx nullptr) := by
  intro i j d hi hj hd
  rcases getElem?_set_cases l idx nullptr d i hi with ⟨_, hi'⟩ | ⟨_, hdi⟩
  · rcases getElem?_set_cases l idx nullptr d j hj with ⟨_, hj'⟩ | ⟨_, hdj⟩
    · exact h i j d hi' hj' hd
    · exact absurd hdj hd
  · exact absurd hdi hd

theorem noSharedSlot_set_fresh (l : List DevicePtr) (idx : Nat) (dev : DevicePtr)
    (h : NoSharedSlot l) (hfresh : dev ∉ l) : NoSharedSlot (l.set idx dev) := by
  intro i j d hi hj hd
  rcases getElem?_set_cases l idx dev d i hi with ⟨_, hi'⟩ | ⟨hi', hdi⟩
  · rcases getElem?_set_cases l idx dev d j hj with ⟨_, hj'⟩ | ⟨_, hdj⟩
    · exact h i j d hi' hj' hd
    · exact absurd (hdj ▸ List.getElem?_mem hi') hfresh
  · rcases getElem?_set_cases l idx dev d j hj with ⟨_, hj'⟩ | ⟨hj', _⟩
    · exact absurd (hdi ▸ List.getElem?_mem hj') hfresh
    · omega

theorem noSharedSlot_replicate (n : Nat) : NoSharedSlot (List.replicate n nullptr) := by
  intro i j d hi _ hd
  exact absurd (List.eq_of_mem_replicate (List.getElem?_mem hi)) hd

theorem reserve_noSharedSlot (self : DeviceHolder) (n : Nat) (h : NoSharedSlot self.devices_) :
    NoSharedSlot (reserve self n).holder.devices_ := by
  unfold reserve
  split
  · exact noSharedSlot_append_replicate _ _ h
  · exact h

theorem addAndActivateDevice_noSharedSlot (self : DeviceHolder) (dev : DevicePtr)
    (h : NoSharedSlot self.devices_) :
    NoSharedSlot (addAndActivateDevice self dev).holder.devices_ := by
  by_cases hrej : dev = nullptr ∨ dev ∈ self.devices_
  · rw [addAndActivateDevice_rejected self dev hrej]
    exact h
  · have hnn : dev ≠ nullptr := fun hd => hrej (Or.inl hd)
    have hfresh : dev ∉ self.devices_ := fun hd => hrej (Or.inr hd)
    rw [addAndActivateDevice_fresh self dev hnn hfresh]
    exact noSharedSlot_append_fresh _ _ h hfresh

theorem addAndActivateDeviceAt_noSharedSlot (self : DeviceHolder) (dev : DevicePtr) (idx : Nat)
    (out : Outcome (Bool × Nat)) (h : NoSharedSlot self.devices_)
    (hok : addAndActivateDeviceAt self dev idx = .ok out) :
    NoSharedSlot out.holder.devices_ := by
  unfold addAndActivateDeviceAt at hok
  by_cases hnn : dev = nullptr
  · rw [if_pos hnn] at hok
    cases hok
    exact h
  · rw [if_neg hnn] at hok
    by_cases hmem : dev ∈ self.devices_
    · have hf : (findDevice self dev).1 = true := (findDevice_fst_iff self dev).2 hmem
      simp only [hf, true_and, if_true] at hok
      split at hok
      · cases hok
        exact h
      · cases hok
        exact h
    · have hf : findDevice self dev = (false, 0) := findDevice_of_not_mem self dev hmem
      simp only [hf, Bool.false_eq_true, false_and, if_false] at hok
      have h1 : NoSharedSlot
          (if ¬ idx < self.devices_.length then (reserve self (toUint32 (idx + 1))).holder
            else self).devices_ := by
        split
        · exact reserve_noSharedSlot self _ h
        · exact h
      have hfresh1 : dev ∉
          (if ¬ idx < self.devices_.length then (reserve self (toUint32 (idx + 1))).holder
            else self).devices_ := by
        split
        · unfold reserve
          split
          · simp only [List.mem_append, not_or]
            exact ⟨hmem, fun hr => hnn (List.eq_of_mem_replicate hr)⟩
          · exact hmem
        · exact hmem
      split at hok
      · exact Except.noConfusion hok
      · split at hok
        · cases hok
          exact h1
        · cases hok
          exact noSharedSlot_set_fresh _ _ _ h1 hfresh1

theorem deactivate_noSharedSlot (self : DeviceHolder) (idx : Nat)
    (h : NoSharedSlot self.devices_) : NoSharedSlot (deactivate self idx).holder.devices_ := by
  unfold deactivate
  split
  · exact noSharedSlot_set_null _ _ h
  · exact h

theorem deactivateAll_noSharedSlot (self : DeviceHolder) :
    NoSharedSlot (deactivateAll self).holder.devices_ := by
  simp only [deactivateAll, deactivateAllLoop_eq]
  exact noSharedSlot_replicate _

theorem applyOp_noSharedSlot (self next : DeviceHolder) (op : Op)
    (h : NoSharedSlot self.devices_) (hok : applyOp self op = .ok next) :
    NoSharedSlot next.devices_ := by
  cases op with
  | addAndActivateDevice dev =>
    simp only [applyOp, Except.ok.injEq] at hok
    subst hok
    exact addAndActivateDevice_noSharedSlot self dev h
  | addAndActivateDeviceAt dev idx =>
    simp only [applyOp] at hok
    split at hok
    · rename_i out hout
      simp only [Except.ok.injEq] at hok
      subst hok
      exact addAndActivateDeviceAt_noSharedSlot self dev idx out h hout
    · exact Except.noConfusion hok
  | reserve n =>
    simp only [applyOp, Except.ok.injEq] at hok
    subst hok
    exact reserve_noSharedSlot self n h
  | deactivate idx =>
    simp only [applyOp, Except.ok.injEq] at hok
    subst hok
    exact deactivate_noSharedSlot self idx h
  | deactivateAll =>
    simp only [applyOp, Except.ok.injEq] at hok
    subst hok
    exact deactivateAll_noSharedSlot self

theorem run_noSharedSlot (ops : List Op) :
    ∀ (self last : DeviceHolder), NoSharedSlot self.devices_ → run self ops = .ok last →
      NoSharedSlot last.devices_ := by
  induction ops with
  | nil =>
    intro self last h hrun
    simp only [run, Except.ok.injEq] at hrun
    subst hrun
    exact h
  | cons op rest ih =>
    intro self last h hrun
    simp only [run] at hrun
    split at hrun
    · rename_i next hnext
      exact ih next last (applyOp_noSharedSlot self next op h hnext) hrun
    · exact Except.noConfusion hrun

/-- C19: in every DeviceHolder state reached from the empty registry by a
sequence of addAndActivateDevice, addAndActivateDeviceAt, reserve, deactivate
and deactivateAll calls with arbitrary arguments (all of which returned), no
device pointer occupies two different slots: for all indices i ≠ j with
hasDeviceAt(i) and hasDeviceAt(j), the devices in slots i and j differ. -/
theorem run_no_device_in_two_slots (ops : List Op) (last : DeviceHolder)
    (hrun : run empty ops = .ok last) (i j : Nat) (hij : i ≠ j)
    (hi : hasDeviceAt last i = true) (hj : hasDeviceAt last j = true) :
    last.devices_.getD i nullptr ≠ last.devices_.getD j nullptr := by
  have hinv : NoSharedSlot last.devices_ :=
    run_noSharedSlot ops empty last noSharedSlot_nil hrun
  obtain ⟨di, hdi, hdi0⟩ := (hasDeviceAt_iff last i).1 hi
  obtain ⟨dj, hdj, _⟩ := (hasDeviceAt_iff last j).1 hj
  have hgi : last.devices_.getD i nullptr = di := by
    rw [List.getD_eq_getElem?_getD, hdi]; rfl
  have hgj : last.devices_.getD j nullptr = dj := by
    rw [List.getD_eq_getElem?_getD, hdj]; rfl
  rw [hgi, hgj]
  intro heq
  exact hij (hinv i j di hdi (heq ▸ hdj) hdi0)

/-- A registry built with every kind of call, the malformed guard of
addAndActivateDeviceAt included: device 7 stays in slot 0 only, device 8 is
in slot 3. -/
theorem run_no_device_in_two_slots_witness :
    run empty [Op.addAndActivateDevice 7, Op.reserve 4, Op.addAndActivateDeviceAt 7 2,
        Op.addAndActivateDeviceAt 8 3, Op.addAndActivateDevice 9, Op.deactivate 4] =
      .ok { devices_ := [7, 0, 0, 8, 0] } ∧
    (0 : Nat) ≠ 3 ∧
    hasDeviceAt { devices_ := [7, 0, 0, 8, 0] } 0 = true ∧
    hasDeviceAt { devices_ := [7, 0, 0, 8, 0] } 3 = true ∧
    ({ devices_ := [7, 0, 0, 8, 0] } : DeviceHolder).devices_.getD 0 nullptr ≠
      ({ devices_ := [7, 0, 0, 8, 0] } : DeviceHolder).devices_.getD 3 nullptr :=
  ⟨rfl, by decide, rfl, rfl,
    run_no_device_in_two_slots
      [Op.addAndActivateDevice 7, Op.reserve 4, Op.addAndActivateDeviceAt 7 2,
        Op.addAndActivateDeviceAt 8 3, Op.addAndActivateDevice 9, Op.deactivate 4]
      { devices_ := [7, 0, 0, 8, 0] } rfl 0 3 (by decide) rfl rfl⟩

/-! ## The deactivate-on-shutdown flag of the registry -/

theorem addAndActivateDeviceAt_flag (self : DeviceHolder) (dev : DevicePtr) (idx : Nat)
    (out : Outcome (Bool × Nat)) (hok : addAndActivateDeviceAt self dev idx = .ok out) :
    out.holder.deactivateOnShutdown_ = self.deactivateOnShutdown_ := by
  unfold addAndActivateDeviceAt at hok
  have hres : (if ¬ idx < self.devices_.length then (reserve self (toUint32 (idx + 1))).holder
      else self).deactivateOnShutdown_ = self.deactivateOnShutdown_ := by
    unfold reserve
    split
    · split <;> rfl
    · rfl
  by_cases hnn : dev = nullptr
  · rw [if_pos hnn] at hok
    cases hok
    rfl
  · rw [if_neg hnn] at hok
    by_cases hmem : dev ∈ self.devices_
    · have hf : (findDevice self dev).1 = true := (findDevice_fst_iff self dev).2 hmem
      simp only [hf, true_and, if_true] at hok
      split at hok
      · cases hok
        rfl
      · cases hok
        rfl
    · have hf : findDevice self dev = (false, 0) := findDevice_of_not_mem self dev hmem
      simp only [hf, Bool.false_eq_true, false_and, if_false] at hok
      split at hok
      · exact Except.noConfusion hok
      · split at hok
        · cases hok
          exact hres
        · cases hok
          exact hres

/-- C20 (amended): for every DeviceHolder whose deactivate-on-shutdown flag
is disabled, the flag is still disabled after addAndActivateDevice,
addAndActivateDeviceAt (when it returns), reserve, deactivate, deactivateAll,
disableDeactivateOnShutdown, a move assignment from itself, and after being
the source of a move construction or of a move assignment; as the target of
a move assignment from another DeviceHolder it takes over the flag of that
holder. -/
theorem deactivateOnShutdown_disabled_stays (self : DeviceHolder)
    (hoff : self.deactivateOnShutdown_ = false) :
    (∀ dev, (addAndActivateDevice self dev).holder.deactivateOnShutdown_ = false) ∧
    (∀ dev idx out, addAndActivateDeviceAt self dev idx = .ok out →
      out.holder.deactivateOnShutdown_ = false) ∧
    (∀ n, (reserve self n).holder.deactivateOnShutdown_ = false) ∧
    (∀ idx, (deactivate self idx).holder.deactivateOnShutdown_ = false) ∧
    (deactivateAll self).holder.deactivateOnShutdown_ = false ∧
    (disableDeactivateOnShutdown self).deactivateOnShutdown_ = false ∧
    (moveAssignSelf self).deactivateOnShutdown_ = false ∧
    (moveConstruct self).source.deactivateOnShutdown_ = false ∧
    (∀ target, (moveAssign target self).source.deactivateOnShutdown_ = false) ∧
    (∀ other, (moveAssign self other).target.deactivateOnShutdown_ =
      other.deactivateOnShutdown_) := by
  refine ⟨?_, ?_, ?_, ?_, ?_, ?_, ?_, ?_, ?_, ?_⟩
  · intro dev
    unfold addAndActivateDevice
    split <;> exact hoff
  · intro dev idx out hok
    rw [addAndActivateDeviceAt_flag self dev idx out hok]
    exact hoff
  · intro n
    unfold reserve
    split <;> exact hoff
  · intro idx
    unfold deactivate
    split <;> exact hoff
  · exact hoff
  · rfl
  · exact hoff
  · rfl
  · intro target
    rfl
  · intro other
    rfl

/-- A holder with the flag disabled keeps it disabled when a device is
added, and takes over the disabled flag of an emptied holder moved into it. -/
theorem deactivateOnShutdown_disabled_stays_witness :
    ({ deactivateOnShutdown_ := false, devices_ := [3] } : DeviceHolder).deactivateOnShutdown_ =
      false ∧
    (addAndActivateDevice { deactivateOnShutdown_ := false, devices_ := [3] } 4).holder =
      { deactivateOnShutdown_ := false, devices_ := [3, 4] } ∧
    (addAndActivateDevice
      { deactivateOnShutdown_ := false, devices_ := [3] } 4).holder.deactivateOnShutdown_ =
        false :=
  ⟨rfl, by decide,
    (deactivateOnShutdown_disabled_stays { deactivateOnShutdown_ := false, devices_ := [3] }
      rfl).1 4⟩

/-- C20 fails for the target of a move assignment: a holder whose flag is
disabled, assigned from another holder whose flag is enabled, has the flag
enabled afterwards. -/
theorem moveAssign_target_flag_enabled_again :
    ({ deactivateOnShutdown_ := false, devices_ := [3] } : DeviceHolder).deactivateOnShutdown_ =
      false ∧
    moveAssign { deactivateOnShutdown_ := false, devices_ := [3] }
        { deactivateOnShutdown_ := true, devices_ := [5] } =
      { target := { deactivateOnShutdown_ := true, devices_ := [5] }
        source := { deactivateOnShutdown_ := false, devices_ := [] }
        calls := [] } ∧
    (moveAssign { deactivateOnShutdown_ := false, devices_ := [3] }
      { deactivateOnShutdown_ := true, devices_ := [5] }).target.deactivateOnShutdown_ ≠
        false := by
  decide

end DeviceHolder

/-! ## The driver session: what each call does to the session -/

namespace DriverWrapper

/-- The guard at the head of `startServerDeviceProvider`. -/
theorem startServerDeviceProvider_rejected (env : Native) (s : DriverWrapper)
    (h : ¬ (foundDriver s = true ∧ foundConfigDirs s = true ∧ haveDriverLoaded s = true ∧
      haveServerDeviceHost s = true)) :
    startServerDeviceProvider env s = { ret := false, session := s, calls := [] } := by
  simp only [startServerDeviceProvider, if_pos h]

theorem startServerDeviceProvider_already (env : Native) (s : DriverWrapper)
    (h : foundDriver s = true ∧ foundConfigDirs s = true ∧ haveDriverLoaded s = true ∧
      haveServerDeviceHost s = true)
    (hp : s.serverDeviceProvider_.isSome = true) :
    startServerDeviceProvider env s = { ret := true, session := s, calls := [] } := by
  simp only [startServerDeviceProvider, h, and_self, not_true_eq_false, if_false, hp, if_true]

theorem startServerDeviceProvider_acquires (env : Native) (s : DriverWrapper)
    (h : foundDriver s = true ∧ foundConfigDirs s = true ∧ haveDriverLoaded s = true ∧
      haveServerDeviceHost s = true)
    (hp : s.serverDeviceProvider_ = none) :
    startServerDeviceProvider env s =
      { ret := (env.acquire s.loader_ s.serverDriverHost_ s.configDirs_.driverConfigDir).isSome
        session := { s with
          loader_ := none
          serverDeviceProvider_ :=
            env.acquire s.loader_ s.serverDriverHost_ s.configDirs_.driverConfigDir }
        calls := [SessionCall.getProvider s.loader_ s.serverDriverHost_
          s.configDirs_.driverConfigDir] } := by
  simp [startServerDeviceProvider, h, hp, getProvider]

theorem isHMDPresent_session (env : Native) (s : DriverWrapper) (out : SessionOutcome Bool)
    (h : isHMDPresent env s = .ok out) : out.session = s := by
  unfold isHMDPresent at h
  split at h
  · cases h; rfl
  · split at h
    · exact Except.noConfusion h
    · cases h; rfl

theorem isHMDPresent_rejected (env : Native) (s : DriverWrapper)
    (h : ¬ (foundDriver s = true ∧ foundConfigDirs s = true ∧ haveDriverLoaded s = true)) :
    isHMDPresent env s = .ok { ret := false, session := s, calls := [] } := by
  simp only [isHMDPresent, if_pos h]

theorem addAndActivateDevice_present (s : DriverWrapper) (dev : DevicePtr)
    (h : dev ∈ s.devices_) :
    addAndActivateDevice s dev = .ok { ret := (false, 0), session := s, calls := [] } := by
  have hlt : s.devices_.indexOf dev ≠ s.devices_.length :=
    Nat.ne_of_lt (List.indexOf_lt_length.2 h)
  simp only [addAndActivateDevice, std_find, hlt, ne_eq, not_false_eq_true, if_true]

theorem addAndActivateDevice_absent (s : DriverWrapper) (dev : DevicePtr)
    (h : dev ∉ s.devices_) :
    addAndActivateDevice s dev =
      if dev = nullptr then .error Fault.null_dereference
      else
        .ok { ret := (true, toUint32 s.devices_.length)
              session := { s with devices_ := s.devices_ ++ [dev] }
              calls := [SessionCall.device
                (DriverCall.Activate dev (toUint32 s.devices_.length))] } := by
  have heq : s.devices_.indexOf dev = s.devices_.length := List.indexOf_eq_length.2 h
  simp only [addAndActivateDevice, std_find, heq, ne_eq, not_true_eq_false, if_false]

theorem addAndActivateDevice_session (s : DriverWrapper) (dev : DevicePtr)
    (out : SessionOutcome (Bool × Nat)) (h : addAndActivateDevice s dev = .ok out) :
    out.session = s ∨
      (dev ≠ nullptr ∧ dev ∉ s.devices_ ∧
        out.session = { s with devices_ := s.devices_ ++ [dev] }) := by
  by_cases hmem : dev ∈ s.devices_
  · rw [addAndActivateDevice_present s dev hmem] at h
    cases h
    exact Or.inl rfl
  · rw [addAndActivateDevice_absent s dev hmem] at h
    split at h
    · exact Except.noConfusion h
    · rename_i hnn
      cases h
      exact Or.inr ⟨hnn, hmem, rfl⟩

/-- The loop of `stop` over a list without null pointers. -/
theorem stopLoop_of_no_null (l : List DevicePtr) (h : ∀ d ∈ l, d ≠ nullptr) :
    stopLoop l = .ok (l.map (fun d => SessionCall.device (DriverCall.Deactivate d))) := by
  induction l with
  | nil => rfl
  | cons d rest ih =>
    have hd : d ≠ nullptr := h d (List.mem_cons_self _ _)
    have hrest := ih (fun x hx => h x (List.mem_cons_of_mem _ hx))
    simp only [stopLoop, if_neg hd, hrest, List.map_cons]

theorem stop_disabled (s : DriverWrapper) (h : s.deactivateOnShutdown_ = false) :
    stop s = .ok { ret := (), session := s, calls := notifyExiting s } := by
  simp [stop, h]

theorem stop_session (s : DriverWrapper) (out : SessionOutcome Unit) (h : stop s = .ok out) :
    out.session = { s with deactivateOnShutdown_ := false } := by
  by_cases hflag : s.deactivateOnShutdown_ = true
  · simp only [stop, if_pos hflag] at h
    split at h
    · cases h; rfl
    · exact Except.noConfusion h
  · have hoff : s.deactivateOnShutdown_ = false := by simpa using hflag
    rw [stop_disabled s hoff] at h
    cases h
    cases s
    simp only at hoff
    subst hoff
    rfl

/-- What one returning call can change: the driver location, the config
dirs and the host never; the loader and the provider only when a provider is
acquired, which needs a found and loaded driver and no provider yet, and
takes the loader away; the device list only by appending a new non-null
device; the flag only towards disabled. -/
theorem applyOp_facts (env : Native) (s next : DriverWrapper) (op : Op)
    (h : applyOp env s op = .ok next) :
    next.driverLocation_ = s.driverLocation_ ∧
    next.configDirs_ = s.configDirs_ ∧
    next.serverDriverHost_ = s.serverDriverHost_ ∧
    ((next.loader_ = s.loader_ ∧ next.serverDeviceProvider_ = s.serverDeviceProvider_) ∨
      (s.serverDeviceProvider_ = none ∧ foundDriver s = true ∧ haveDriverLoaded s = true ∧
        next.loader_ = none)) ∧
    (next.devices_ = s.devices_ ∨
      ∃ dev, dev ≠ nullptr ∧ dev ∉ s.devices_ ∧ next.devices_ = s.devices_ ++ [dev]) ∧
    (s.deactivateOnShutdown_ = false → next.deactivateOnShutdown_ = false) := by
  cases op with
  | isHMDPresent =>
    simp only [applyOp] at h
    split at h
    · rename_i out hout
      cases h
      rw [isHMDPresent_session env s out hout]
      exact ⟨rfl, rfl, rfl, Or.inl ⟨rfl, rfl⟩, Or.inl rfl, id⟩
    · exact Except.noConfusion h
  | startServerDeviceProvider =>
    simp only [applyOp, Except.ok.injEq] at h
    subst h
    by_cases hg : foundDriver s = true ∧ foundConfigDirs s = true ∧ haveDriverLoaded s = true ∧
        haveServerDeviceHost s = true
    · cases hp : s.serverDeviceProvider_ with
      | some p =>
        rw [startServerDeviceProvider_already env s hg (by simp [hp])]
        exact ⟨rfl, rfl, rfl, Or.inl ⟨rfl, hp⟩, Or.inl rfl, id⟩
      | none =>
        rw [startServerDeviceProvider_acquires env s hg hp]
        exact ⟨rfl, rfl, rfl, Or.inr ⟨rfl, hg.1, hg.2.2.1, rfl⟩, Or.inl rfl, id⟩
    · rw [startServerDeviceProvider_rejected env s hg]
      exact ⟨rfl, rfl, rfl, Or.inl ⟨rfl, rfl⟩, Or.inl rfl, id⟩
  | addAndActivateDevice dev =>
    simp only [applyOp] at h
    split at h
    · rename_i out hout
      cases h
      rcases addAndActivateDevice_session s dev out hout with hs | ⟨hnn, hfresh, hs⟩
      · rw [hs]
        exact ⟨rfl, rfl, rfl, Or.inl ⟨rfl, rfl⟩, Or.inl rfl, id⟩
      · rw [hs]
        exact ⟨rfl, rfl, rfl, Or.inl ⟨rfl, rfl⟩, Or.inr ⟨dev, hnn, hfresh, rfl⟩, id⟩
    · exact Except.noConfusion h
  | disableDeactivateOnShutdown =>
    simp only [applyOp, Except.ok.injEq] at h
    subst h
    exact ⟨rfl, rfl, rfl, Or.inl ⟨rfl, rfl⟩, Or.inl rfl, fun _ => rfl⟩
  | stop =>
    simp only [applyOp] at h
    split at h
    · rename_i out hout
      cases h
      rw [stop_session s out hout]
      exact ⟨rfl, rfl, rfl, Or.inl ⟨rfl, rfl⟩, Or.inl rfl, fun _ => rfl⟩
    · exact Except.noConfusion h

/-- A property every returning call keeps holds after any sequence of
returning calls. -/
theorem run_keeps (env : Native) (P : DriverWrapper → Prop)
    (hstep : ∀ (s next : DriverWrapper) (op : Op), P s → applyOp env s op = .ok next → P next)
    (ops : List Op) :
    ∀ (s last : DriverWrapper), P s → run env s ops = .ok last → P last := by
  induction ops with
  | nil =>
    intro s last hs hrun
    simp only [run, Except.ok.injEq] at hrun
    subst hrun
    exact hs
  | cons op rest ih =>
    intro s last hs hrun
    simp only [run] at hrun
    split at hrun
    · rename_i next hnext
      exact ih next last (hstep s next op hs hnext) hrun
    · exact Except.noConfusion hrun

/-! ## The driver session: what holds in every reachable session -/

theorem constructBody_facts (env : Native) (s : DriverWrapper) :
    (constructBody env s).session.driverLocation_ = s.driverLocation_ ∧
    (constructBody env s).session.serverDeviceProvider_ = s.serverDeviceProvider_ ∧
    (constructBody env s).session.devices_ = s.devices_ ∧
    (constructBody env s).session.serverDriverHost_ = s.serverDriverHost_ ∧
    (foundDriver s = false →
      (constructBody env s).session = s ∧ (constructBody env s).calls = []) ∧
    (foundDriver s = true ∨ (constructBody env s).session.loader_ = s.loader_) := by
  unfold constructBody
  by_cases hf : foundDriver s = true
  · simp only [hf, not_true_eq_false, if_false]
    split
    · exact ⟨rfl, rfl, rfl, rfl, fun h => Bool.noConfusion h, Or.inl trivial⟩
    · exact ⟨rfl, rfl, rfl, rfl, fun h => Bool.noConfusion h, Or.inl trivial⟩
  · simp only [hf, not_false_eq_true, if_true]
    exact ⟨rfl, rfl, rfl, rfl, fun _ => ⟨rfl, rfl⟩, Or.inr rfl⟩

theorem constructBody_consistent (env : Native) (s : DriverWrapper)
    (hl : s.loader_ = none) (hp : s.serverDeviceProvider_ = none) (hd : s.devices_ = []) :
    Consistent (constructBody env s).session := by
  obtain ⟨hloc, hprov, hdev, _, _, hload⟩ := constructBody_facts env s
  refine ⟨Or.inr (by rw [hprov, hp]), ?_, ?_, ?_⟩
  · intro h
    rcases hload with hfound | hsame
    · simp only [foundDriver, hloc]
      exact hfound
    · rw [hsame, hl, hprov, hp] at h
      simp at h
  · rw [hdev, hd]
    intro d hmem
    simp at hmem
  · rw [hdev, hd]
    exact List.nodup_nil

theorem applyOp_consistent (env : Native) (s next : DriverWrapper) (op : Op)
    (hs : Consistent s) (h : applyOp env s op = .ok next) : Consistent next := by
  obtain ⟨hloc, _, _, hlp, hdev, _⟩ := applyOp_facts env s next op h
  obtain ⟨h1, h2, h3, h4⟩ := hs
  have hfound : foundDriver next = foundDriver s := by
    simp only [foundDriver, hloc]
  refine ⟨?_, ?_, ?_, ?_⟩
  · rcases hlp with ⟨hl, hp⟩ | ⟨_, _, _, hl⟩
    · rw [hl, hp]; exact h1
    · exact Or.inl hl
  · intro _
    rw [hfound]
    rcases hlp with ⟨hl, hp⟩ | ⟨_, hf, _, _⟩
    · apply h2
      rw [← hl, ← hp]
      assumption
    · exact hf
  · rcases hdev with hd | ⟨dev, hnn, _, hd⟩
    · rw [hd]; exact h3
    · rw [hd]
      intro d hmem
      rcases List.mem_append.1 hmem with hm | hm
      · exact h3 d hm
      · rw [List.mem_singleton.1 hm]; exact hnn
  · rcases hdev with hd | ⟨dev, _, hfresh, hd⟩
    · rw [hd]; exact h4
    · rw [hd]
      exact List.Nodup.append h4 (List.nodup_singleton dev)
        (by
          intro a ha hb
          rw [List.mem_singleton.1 hb] at ha
          exact hfresh ha)

theorem reachable_consistent (env : Native) (s : DriverWrapper) (h : Reachable env s) :
    Consistent s := by
  rcases h with ⟨host, ops, hrun⟩ | ⟨ops, hrun⟩
  · exact run_keeps env Consistent (fun a b op => applyOp_consistent env a b op) ops _ s
      (constructBody_consistent env _ rfl rfl rfl) hrun
  · exact run_keeps env Consistent (fun a b op => applyOp_consistent env a b op) ops _ s
      (constructBody_consistent env _ rfl rfl rfl) hrun

theorem haveDriverLoaded_of_none (s : DriverWrapper) (hl : s.loader_ = none)
    (hp : s.serverDeviceProvider_ = none) : haveDriverLoaded s = false := by
  simp [haveDriverLoaded, loaderOpened, hl, hp]

/-- A session without loader and provider never gets either again. -/
theorem run_keeps_unloaded (env : Native) (ops : List Op) (s last : DriverWrapper)
    (hl : s.loader_ = none) (hp : s.serverDeviceProvider_ = none)
    (hrun : run env s ops = .ok last) :
    last.loader_ = none ∧ last.serverDeviceProvider_ = none ∧
    last.driverLocation_ = s.driverLocation_ := by
  refine run_keeps env
    (fun x => x.loader_ = none ∧ x.serverDeviceProvider_ = none ∧
      x.driverLocation_ = s.driverLocation_) ?_ ops s last ⟨hl, hp, rfl⟩ hrun
  intro a b op ⟨hal, hap, haloc⟩ hstep
  obtain ⟨hloc, _, _, hlp, _, _⟩ := applyOp_facts env a b op hstep
  rcases hlp with ⟨hbl, hbp⟩ | ⟨_, _, hloaded, _⟩
  · exact ⟨by rw [hbl, hal], by rw [hbp, hap], by rw [hloc, haloc]⟩
  · rw [haveDriverLoaded_of_none a hal hap] at hloaded
    exact Bool.noConfusion hloaded

/-! ## The driver session: provider acquisition -/

/-- C11: for every session on which startServerDeviceProvider() has returned
true, a second startServerDeviceProvider() call also returns true, makes no
call at all (so getProvider is not called again) and leaves the session, the
held provider included, unchanged. -/
theorem startServerDeviceProvider_twice (env : Native) (s : DriverWrapper)
    (h : (startServerDeviceProvider env s).ret = true) :
    startServerDeviceProvider env (startServerDeviceProvider env s).session =
      { ret := true, session := (startServerDeviceProvider env s).session, calls := [] } := by
  by_cases hg : foundDriver s = true ∧ foundConfigDirs s = true ∧ haveDriverLoaded s = true ∧
      haveServerDeviceHost s = true
  · cases hp : s.serverDeviceProvider_ with
    | some p =>
      have hsome : s.serverDeviceProvider_.isSome = true := by simp [hp]
      rw [startServerDeviceProvider_already env s hg hsome]
      exact startServerDeviceProvider_already env s hg hsome
    | none =>
      rw [startServerDeviceProvider_acquires env s hg hp] at h ⊢
      simp only at h
      apply startServerDeviceProvider_already
      · refine ⟨hg.1, hg.2.1, ?_, hg.2.2.2⟩
        simp only [haveDriverLoaded, h, Bool.or_true]
      · exact h
  · rw [startServerDeviceProvider_rejected env s hg] at h
    exact Bool.noConfusion h

/-- A constructed session acquires its provider once; the second call
returns true without calling getProvider. -/
theorem startServerDeviceProvider_twice_witness :
    (startServerDeviceProvider nativeFound (construct nativeFound 5).session).ret = true ∧
    (startServerDeviceProvider nativeFound (construct nativeFound 5).session).calls =
      [SessionCall.getProvider (some { handle := 1, opened := true }) 5 "config/driver"] ∧
    startServerDeviceProvider nativeFound
        (startServerDeviceProvider nativeFound (construct nativeFound 5).session).session =
      { ret := true
        session := (startServerDeviceProvider nativeFound (construct nativeFound 5).session).session
        calls := [] } :=
  ⟨rfl, rfl, startServerDeviceProvider_twice nativeFound (construct nativeFound 5).session rfl⟩

/-- C12: for every reachable session on which startServerDeviceProvider()
has succeeded, isHMDPresent() raises the logic fault and returns no value;
in a session whose driver was found, whose config dirs are valid and whose
loader is still held and opened, isHMDPresent() returns what the loader
answers for the root config dir, without fault. -/
theorem isHMDPresent_before_and_after_start (env : Native) (s : DriverWrapper)
    (hreach : Reachable env s) :
    ((startServerDeviceProvider env s).ret = true →
      isHMDPresent env (startServerDeviceProvider env s).session = .error Fault.logic_error) ∧
    (∀ loader, foundDriver s = true → foundConfigDirs s = true → s.loader_ = some loader →
      loader.opened = true →
      isHMDPresent env s =
        .ok { ret := env.loaderIsHMDPresent loader s.configDirs_.rootConfigDir
              session := s
              calls := [SessionCall.loaderIsHMDPresent loader s.configDirs_.rootConfigDir] }) := by
  constructor
  · intro h
    obtain ⟨hnot, _, _, _⟩ := reachable_consistent env s hreach
    by_cases hg : foundDriver s = true ∧ foundConfigDirs s = true ∧ haveDriverLoaded s = true ∧
        haveServerDeviceHost s = true
    · cases hp : s.serverDeviceProvider_ with
      | some p =>
        have hsome : s.serverDeviceProvider_.isSome = true := by simp [hp]
        rw [startServerDeviceProvider_already env s hg hsome]
        have hl : s.loader_ = none := by
          rcases hnot with hl | hn
          · exact hl
          · rw [hp] at hn
            exact Option.noConfusion hn
        simp [isHMDPresent, hg.1, hg.2.1, hg.2.2.1, hl]
      | none =>
        rw [startServerDeviceProvider_acquires env s hg hp] at h ⊢
        simp only at h
        have hf := hg.1
        have hv := hg.2.1
        simp only [foundDriver, foundConfigDirs] at hf hv
        simp [isHMDPresent, foundDriver, foundConfigDirs, haveDriverLoaded, hf, hv, h]
    · rw [startServerDeviceProvider_rejected env s hg] at h
      exact Bool.noConfusion h
  · intro loader hf hv hl hopen
    have hloaded : haveDriverLoaded s = true := by
      simp [haveDriverLoaded, loaderOpened, hl, hopen]
    simp [isHMDPresent, hf, hv, hloaded, hl]

/-- A constructed session answers the presence query through its loader;
once the provider is acquired the query raises the logic fault. -/
theorem isHMDPresent_before_and_after_start_witness :
    Reachable nativeFound (construct nativeFound 5).session ∧
    (startServerDeviceProvider nativeFound (construct nativeFound 5).session).ret = true ∧
    isHMDPresent nativeFound
        (startServerDeviceProvider nativeFound (construct nativeFound 5).session).session =
      .error Fault.logic_error ∧
    isHMDPresent nativeFound (construct nativeFound 5).session =
      .ok { ret := true
            session := (construct nativeFound 5).session
            calls := [SessionCall.loaderIsHMDPresent { handle := 1, opened := true } "config"] } :=
  ⟨Or.inl ⟨5, [], rfl⟩, rfl,
    (isHMDPresent_before_and_after_start nativeFound (construct nativeFound 5).session
      (Or.inl ⟨5, [], rfl⟩)).1 rfl,
    (isHMDPresent_before_and_after_start nativeFound (construct nativeFound 5).session
      (Or.inl ⟨5, [], rfl⟩)).2 { handle := 1, opened := true } rfl rfl rfl rfl⟩

/-- C13: in every session state reached from construction by any sequence
of isHMDPresent, startServerDeviceProvider, addAndActivateDevice,
disableDeactivateOnShutdown and stop calls, the session never holds both a
loader and a provider, and haveDriverLoaded() is true if and only if exactly
one of the two exists: a held loader that opened successfully, or an
acquired provider. -/
theorem haveDriverLoaded_iff_exactly_one (env : Native) (s : DriverWrapper)
    (hreach : Reachable env s) :
    ¬ (s.loader_.isSome = true ∧ s.serverDeviceProvider_.isSome = true) ∧
    (haveDriverLoaded s = true ↔
      Xor' (∃ loader, s.loader_ = some loader ∧ loader.opened = true)
        (∃ provider, s.serverDeviceProvider_ = some provider)) := by
  obtain ⟨hnot, _, _, _⟩ := reachable_consistent env s hreach
  rcases hnot with hl | hp
  · refine ⟨by simp [hl], ?_⟩
    cases hp : s.serverDeviceProvider_ with
    | none => simp [haveDriverLoaded, loaderOpened, hl, hp, Xor']
    | some p => simp [haveDriverLoaded, loaderOpened, hl, hp, Xor']
  · refine ⟨by simp [hp], ?_⟩
    cases hl : s.loader_ with
    | none => simp [haveDriverLoaded, loaderOpened, hl, hp, Xor']
    | some loader => simp [haveDriverLoaded, loaderOpened, hl, hp, Xor']

/-- After the presence query, the acquisition, a device registration and a
stop, the session holds the provider and no loader. -/
theorem haveDriverLoaded_iff_exactly_one_witness :
    Reachable nativeFound
      { serverDriverHost_ := 5
        driverLocation_ := { found := true, driverRoot := "root", driverFile := "file" }
        configDirs_ :=
          { valid := true, rootConfigDir := "config", driverConfigDir := "config/driver" }
        loader_ := none
        serverDeviceProvider_ := some { handle := 2 }
        devices_ := [3]
        deactivateOnShutdown_ := false } ∧
    haveDriverLoaded
      { serverDriverHost_ := 5
        driverLocation_ := { found := true, driverRoot := "root", driverFile := "file" }
        configDirs_ :=
          { valid := true, rootConfigDir := "config", driverConfigDir := "config/driver" }
        loader_ := none
        serverDeviceProvider_ := some { handle := 2 }
        devices_ := [3]
        deactivateOnShutdown_ := false } = true ∧
    (haveDriverLoaded (construct nativeFound 5).session = true ↔
      Xor' (∃ loader, (construct nativeFound 5).session.loader_ = some loader ∧
          loader.opened = true)
        (∃ provider, (construct nativeFound 5).session.serverDeviceProvider_ = some provider)) :=
  ⟨Or.inl ⟨5, [Op.isHMDPresent, Op.startServerDeviceProvider, Op.addAndActivateDevice 3,
      Op.stop], rfl⟩, rfl,
    (haveDriverLoaded_iff_exactly_one nativeFound (construct nativeFound 5).session
      (Or.inl ⟨5, [], rfl⟩)).2⟩

/-- C14: for every session that satisfies the preconditions of
startServerDeviceProvider() (driver found, config dirs valid, loader held
and opened, host present, no provider yet) and in which the native
acquisition yields no provider, the call returns false after one getProvider
call and leaves the session with neither a loader nor a provider; in every
later state haveDriverLoaded() is false, isHMDPresent() returns false
without fault, and startServerDeviceProvider() returns false without calling
getProvider again. -/
theorem startServerDeviceProvider_failure_is_terminal (env : Native) (s : DriverWrapper)
    (loader : DriverLoader) (hfound : foundDriver s = true) (hvalid : foundConfigDirs s = true)
    (hl : s.loader_ = some loader) (hopen : loader.opened = true)
    (hhost : haveServerDeviceHost s = true) (hp : s.serverDeviceProvider_ = none)
    (hacq : env.acquire (some loader) s.serverDriverHost_ s.configDirs_.driverConfigDir = none) :
    startServerDeviceProvider env s =
      { ret := false
        session := { s with loader_ := none, serverDeviceProvider_ := none }
        calls := [SessionCall.getProvider (some loader) s.serverDriverHost_
          s.configDirs_.driverConfigDir] } ∧
    ∀ (ops : List Op) (later : DriverWrapper),
      run env (startServerDeviceProvider env s).session ops = .ok later →
      later.loader_ = none ∧ later.serverDeviceProvider_ = none ∧
      haveDriverLoaded later = false ∧
      isHMDPresent env later = .ok { ret := false, session := later, calls := [] } ∧
      startServerDeviceProvider env later = { ret := false, session := later, calls := [] } := by
  have hloaded : haveDriverLoaded s = true := by
    simp [haveDriverLoaded, loaderOpened, hl, hopen]
  have hcall := startServerDeviceProvider_acquires env s ⟨hfound, hvalid, hloaded, hhost⟩ hp
  rw [hl, hacq] at hcall
  refine ⟨by rw [hcall]; rfl, ?_⟩
  intro ops later hrun
  rw [hcall] at hrun
  obtain ⟨hll, hlp, _⟩ := run_keeps_unloaded env ops _ later rfl rfl hrun
  have hno : haveDriverLoaded later = false := haveDriverLoaded_of_none later hll hlp
  refine ⟨hll, hlp, hno, ?_, ?_⟩
  · apply isHMDPresent_rejected
    rw [hno]
    simp
  · apply startServerDeviceProvider_rejected
    rw [hno]
    simp

/-- A constructed session whose native entry point yields no provider: the
acquisition fails once and is not attempted again. -/
theorem startServerDeviceProvider_failure_is_terminal_witness :
    startServerDeviceProvider nativeNoProvider (construct nativeNoProvider 5).session =
      { ret := false
        session := { (construct nativeNoProvider 5).session with
          loader_ := none, serverDeviceProvider_ := none }
        calls := [SessionCall.getProvider (some { handle := 1, opened := true }) 5
          "config/driver"] } ∧
    startServerDeviceProvider nativeNoProvider
        (startServerDeviceProvider nativeNoProvider (construct nativeNoProvider 5).session).session =
      { ret := false
        session :=
          (startServerDeviceProvider nativeNoProvider (construct nativeNoProvider 5).session).session
        calls := [] } :=
  ⟨(startServerDeviceProvider_failure_is_terminal nativeNoProvider
      (construct nativeNoProvider 5).session { handle := 1, opened := true }
      rfl rfl rfl rfl rfl rfl rfl).1,
    ((startServerDeviceProvider_failure_is_terminal nativeNoProvider
      (construct nativeNoProvider 5).session { handle := 1, opened := true }
      rfl rfl rfl rfl rfl rfl rfl).2 [] _ rfl).2.2.2.2⟩

/-! ## The driver session: stopping, moving and registering devices -/

theorem notifyExiting_no_device_call (s : DriverWrapper) (c : DriverCall) :
    SessionCall.device c ∉ notifyExiting s := by
  unfold notifyExiting
  split <;> simp

theorem deviceCall_injective :
    Function.Injective (fun d : DevicePtr => SessionCall.device (DriverCall.Deactivate d)) := by
  intro a b h
  simpa using h

/-- The flag of a session, once disabled, is disabled after every sequence
of returning calls. -/
theorem run_keeps_flag_disabled (env : Native) (ops : List Op) (s last : DriverWrapper)
    (hoff : s.deactivateOnShutdown_ = false) (hrun : run env s ops = .ok last) :
    last.deactivateOnShutdown_ = false :=
  run_keeps env (fun x => x.deactivateOnShutdown_ = false)
    (fun a b op ha hstep => (applyOp_facts env a b op hstep).2.2.2.2.2 ha) ops s last hoff hrun

/-- C15: for every session state with the deactivate-on-teardown flag
enabled (its device list holding devices, that is non-null pointers, each
once), stop() calls Deactivate exactly once on every device of the list,
after notifying the host, and disables the flag; for every session state, a
stop() that follows an earlier stop(), at once or after further calls, run
by the destructor or not, calls Deactivate on no device and changes nothing:
it only notifies the host again that the process is exiting. -/
theorem stop_deactivates_once (env : Native) (s : DriverWrapper) :
    (s.deactivateOnShutdown_ = true → (∀ d ∈ s.devices_, d ≠ nullptr) →
      stop s =
        .ok { ret := ()
              session := { s with deactivateOnShutdown_ := false }
              calls := notifyExiting s ++
                s.devices_.map (fun d => SessionCall.device (DriverCall.Deactivate d)) } ∧
      (s.devices_.Nodup → ∀ d ∈ s.devices_,
        (notifyExiting s ++
          s.devices_.map (fun d => SessionCall.device (DriverCall.Deactivate d))).count
            (SessionCall.device (DriverCall.Deactivate d)) = 1)) ∧
    (∀ first, stop s = .ok first →
      first.session.deactivateOnShutdown_ = false ∧
      ∀ (ops : List Op) (later : DriverWrapper), run env first.session ops = .ok later →
        stop later = .ok { ret := (), session := later, calls := notifyExiting later } ∧
        destructor later = .ok { ret := (), session := later, calls := notifyExiting later } ∧
        ∀ c, SessionCall.device c ∉ notifyExiting later) := by
  constructor
  · intro hflag hnn
    constructor
    · simp only [stop, if_pos hflag, stopLoop_of_no_null s.devices_ hnn]
      rfl
    · intro hnd d hd
      rw [List.count_append,
        List.count_eq_zero_of_not_mem (notifyExiting_no_device_call s (DriverCall.Deactivate d)),
        List.count_map_of_injective s.devices_ _ deviceCall_injective d,
        List.count_eq_one_of_mem hnd hd]
  · intro first hfirst
    have hoff : first.session.deactivateOnShutdown_ = false := by
      rw [stop_session s first hfirst]
    refine ⟨hoff, ?_⟩
    intro ops later hrun
    have hlater := run_keeps_flag_disabled env ops first.session later hoff hrun
    exact ⟨stop_disabled later hlater, stop_disabled later hlater,
      fun c => notifyExiting_no_device_call later c⟩

/-- A session with two devices and a host: the first stop deactivates both
devices, the second only notifies the host. -/
theorem stop_deactivates_once_witness :
    stop { serverDriverHost_ := 5, devices_ := [3, 4] } =
      .ok { ret := ()
            session := { serverDriverHost_ := 5, devices_ := [3, 4]
                         deactivateOnShutdown_ := false }
            calls := [SessionCall.setExiting 5, SessionCall.device (DriverCall.Deactivate 3),
              SessionCall.device (DriverCall.Deactivate 4)] } ∧
    stop { serverDriverHost_ := 5, devices_ := [3, 4], deactivateOnShutdown_ := false } =
      .ok { ret := ()
            session := { serverDriverHost_ := 5, devices_ := [3, 4]
                         deactivateOnShutdown_ := false }
            calls := [SessionCall.setExiting 5] } :=
  ⟨((stop_deactivates_once nativeFound { serverDriverHost_ := 5, devices_ := [3, 4] }).1 rfl
      (by decide)).1,
    (((stop_deactivates_once nativeFound { serverDriverHost_ := 5, devices_ := [3, 4] }).2
      { ret := ()
        session := { serverDriverHost_ := 5, devices_ := [3, 4], deactivateOnShutdown_ := false }
        calls := [SessionCall.setExiting 5, SessionCall.device (DriverCall.Deactivate 3),
          SessionCall.device (DriverCall.Deactivate 4)] } rfl).2 [] _ rfl).1⟩

/-- C16 (amended): for every session state, move-constructing a destination
from a source gives the destination the source's host, driver location,
config dirs, loader or provider, device list and deactivate-on-teardown
flag, and leaves the source without loader, provider and devices; the flag
of the source is not cleared but left as it was, and the teardown of the
source (stop() run by its destructor) returns and calls Deactivate on no
device. -/
theorem moveConstruct_source_deactivates_nothing (other : DriverWrapper) :
    (moveConstruct other).target = other ∧
    (moveConstruct other).source.loader_ = none ∧
    (moveConstruct other).source.serverDeviceProvider_ = none ∧
    (moveConstruct other).source.devices_ = [] ∧
    (moveConstruct other).source.deactivateOnShutdown_ = other.deactivateOnShutdown_ ∧
    (∃ out, destructor (moveConstruct other).source = .ok out ∧
      out.calls = notifyExiting other ∧
      ∀ c, SessionCall.device c ∉ out.calls) := by
  refine ⟨rfl, rfl, rfl, rfl, rfl, ?_⟩
  have hnotify : notifyExiting (moveConstruct other).source = notifyExiting other := rfl
  by_cases hflag : other.deactivateOnShutdown_ = true
  · have hstop : destructor (moveConstruct other).source =
        .ok { ret := ()
              session := disableDeactivateOnShutdown (moveConstruct other).source
              calls := notifyExiting other } := by
      unfold destructor stop
      rw [if_pos (show (moveConstruct other).source.deactivateOnShutdown_ = true from hflag)]
      simp [moveConstruct, stopLoop, notifyExiting, haveServerDeviceHost]
    refine ⟨_, hstop, rfl, ?_⟩
    intro c
    exact notifyExiting_no_device_call other c
  · have hoff : (moveConstruct other).source.deactivateOnShutdown_ = false := by
      simpa [moveConstruct] using hflag
    refine ⟨_, stop_disabled _ hoff, hnotify, ?_⟩
    intro c
    rw [hnotify]
    exact notifyExiting_no_device_call other c

/-- C16 fails in that the flag of the source is not cleared: a session with
the flag enabled and one device, once moved from, still has the flag
enabled (its device list is empty). -/
theorem moveConstruct_source_flag_not_cleared :
    (moveConstruct { serverDriverHost_ := 5, devices_ := [3] }).target =
      { serverDriverHost_ := 5, devices_ := [3], deactivateOnShutdown_ := true } ∧
    (moveConstruct { serverDriverHost_ := 5, devices_ := [3] }).source =
      { serverDriverHost_ := 5, devices_ := [], deactivateOnShutdown_ := true } ∧
    (moveConstruct { serverDriverHost_ := 5, devices_ := [3] }).source.deactivateOnShutdown_ ≠
      false := by
  decide

/-- C17: the session's addAndActivateDevice ought to reject the null
pointer with (false, 0) and no change, as DeviceHolder::addAndActivateDevice
does on the same (empty) list; the code has no null check: the null pointer
is not found in the list, is appended, and `dev->Activate(newId)`
dereferences it. -/
theorem addAndActivateDevice_null_dereference :
    DeviceHolder.addAndActivateDevice { devices_ := [] } nullptr =
      { ret := (false, 0), holder := { devices_ := [] }, calls := [] } ∧
    addAndActivateDevice { devices_ := [] } nullptr = .error Fault.null_dereference :=
  ⟨rfl, rfl⟩

/-- For a non-null device pointer (and for the null pointer when the list
already holds a null entry) the session's addAndActivateDevice does what
DeviceHolder::addAndActivateDevice does on the same list: same return value,
same list afterwards, same Activate calls. -/
theorem addAndActivateDevice_matches_holder (s : DriverWrapper) (holder : DeviceHolder)
    (dev : DevicePtr) (hlist : holder.devices_ = s.devices_)
    (hdev : dev ≠ nullptr ∨ nullptr ∈ s.devices_) :
    addAndActivateDevice s dev =
      .ok { ret := (DeviceHolder.addAndActivateDevice holder dev).ret
            session := { s with
              devices_ := (DeviceHolder.addAndActivateDevice holder dev).holder.devices_ }
            calls := (DeviceHolder.addAndActivateDevice holder dev).calls.map
              SessionCall.device } := by
  by_cases hmem : dev ∈ s.devices_
  · rw [addAndActivateDevice_present s dev hmem,
      DeviceHolder.addAndActivateDevice_rejected holder dev (Or.inr (hlist ▸ hmem))]
    simp [hlist]
  · have hnn : dev ≠ nullptr := by
      rcases hdev with h | h
      · exact h
      · intro h0
        exact hmem (h0 ▸ h)
    rw [addAndActivateDevice_absent s dev hmem, if_neg hnn,
      DeviceHolder.addAndActivateDevice_fresh holder dev hnn (hlist ▸ hmem)]
    simp [hlist]

/-- A new device is appended by the session as by the holder. -/
theorem addAndActivateDevice_matches_holder_witness :
    addAndActivateDevice { devices_ := [3] } 4 =
      .ok { ret := (true, 1)
            session := { devices_ := [3, 4] }
            calls := [SessionCall.device (DriverCall.Activate 4 1)] } :=
  addAndActivateDevice_matches_holder { devices_ := [3] } { devices_ := [3] } 4 rfl
    (Or.inl (by decide))

/-! ## The driver session: a driver that is not found -/

/-- C18: for every session constructed when the locator reports the driver
as not found, with or without a caller-supplied host, and in every state
reached from it, foundDriver() is false, haveDriverLoaded() is false, the
conversion to bool yields false, and isHMDPresent() and
startServerDeviceProvider() both return false without fault and without any
call (the constructor itself calls the locator only, not the loader); and in
every reachable session state haveDriverLoaded() implies foundDriver(). -/
theorem not_found_session_is_inert (env : Native) (s : DriverWrapper)
    (hreach : Reachable env s) :
    (env.findDriver.found = false →
      foundDriver s = false ∧ haveDriverLoaded s = false ∧ operatorBool s = false ∧
      isHMDPresent env s = .ok { ret := false, session := s, calls := [] } ∧
      startServerDeviceProvider env s = { ret := false, session := s, calls := [] } ∧
      (∀ host, (construct env host).calls = [SessionCall.findDriver]) ∧
      (constructDefault env).calls = [SessionCall.findDriver]) ∧
    (haveDriverLoaded s = true → foundDriver s = true) := by
  constructor
  · intro hnf
    have hstart : ∀ s0 : DriverWrapper, s0.driverLocation_ = env.findDriver →
        s0.loader_ = none → s0.serverDeviceProvider_ = none →
        (constructBody env s0).session = s0 ∧ (constructBody env s0).calls = [] := by
      intro s0 hloc _ _
      exact (constructBody_facts env s0).2.2.2.2.1 (by simp [foundDriver, hloc, hnf])
    have hs : s.loader_ = none ∧ s.serverDeviceProvider_ = none ∧
        s.driverLocation_ = env.findDriver := by
      rcases hreach with ⟨host, ops, hrun⟩ | ⟨ops, hrun⟩
      · have h0 := hstart { serverDriverHost_ := host, driverLocation_ := env.findDriver }
          rfl rfl rfl
        have hc : (construct env host).session =
            { serverDriverHost_ := host, driverLocation_ := env.findDriver } := h0.1
        rw [hc] at hrun
        exact run_keeps_unloaded env ops _ s rfl rfl hrun
      · have h0 := hstart
          { owningServerDriverHost_ := some env.newServerDriverHost
            serverDriverHost_ := env.newServerDriverHost
            driverLocation_ := env.findDriver } rfl rfl rfl
        have hc : (constructDefault env).session =
            { owningServerDriverHost_ := some env.newServerDriverHost
              serverDriverHost_ := env.newServerDriverHost
              driverLocation_ := env.findDriver } := h0.1
        rw [hc] at hrun
        exact run_keeps_unloaded env ops _ s rfl rfl hrun
    obtain ⟨hl, hp, hloc⟩ := hs
    have hfd : foundDriver s = false := by
      simp [foundDriver, hloc, hnf]
    have hno : haveDriverLoaded s = false := haveDriverLoaded_of_none s hl hp
    refine ⟨hfd, hno, ?_, ?_, ?_, ?_, ?_⟩
    · simp [operatorBool, hno]
    · apply isHMDPresent_rejected
      rw [hfd]
      simp
    · apply startServerDeviceProvider_rejected
      rw [hfd]
      simp
    · intro host
      have h0 := hstart { serverDriverHost_ := host, driverLocation_ := env.findDriver }
        rfl rfl rfl
      simp only [construct, h0.2]
    · have h0 := hstart
        { owningServerDriverHost_ := some env.newServerDriverHost
          serverDriverHost_ := env.newServerDriverHost
          driverLocation_ := env.findDriver } rfl rfl rfl
      simp only [constructDefault, h0.2]
  · intro hloaded
    obtain ⟨_, hfound, _, _⟩ := reachable_consistent env s hreach
    apply hfound
    simp only [haveDriverLoaded, loaderOpened, Bool.or_eq_true] at hloaded
    rcases hloaded with h | h
    · left
      cases hl : s.loader_ with
      | none => rw [hl] at h; exact Bool.noConfusion h
      | some l => rfl
    · exact Or.inr h

/-- A session constructed with its own host when the driver is not found,
after a presence query, an acquisition attempt and a stop. -/
theorem not_found_session_is_inert_witness :
    Reachable nativeNotFound
      { owningServerDriverHost_ := some 9, serverDriverHost_ := 9
        deactivateOnShutdown_ := false } ∧
    nativeNotFound.findDriver.found = false ∧
    foundDriver
      { owningServerDriverHost_ := some 9, serverDriverHost_ := 9
        deactivateOnShutdown_ := false } = false ∧
    haveDriverLoaded
      { owningServerDriverHost_ := some 9, serverDriverHost_ := 9
        deactivateOnShutdown_ := false } = false ∧
    operatorBool
      { owningServerDriverHost_ := some 9, serverDriverHost_ := 9
        deactivateOnShutdown_ := false } = false :=
  ⟨Or.inr ⟨[Op.isHMDPresent, Op.startServerDeviceProvider, Op.stop], rfl⟩, rfl,
    ((not_found_session_is_inert nativeNotFound
      { owningServerDriverHost_ := some 9, serverDriverHost_ := 9
        deactivateOnShutdown_ := false }
      (Or.inr ⟨[Op.isHMDPresent, Op.startServerDeviceProvider, Op.stop], rfl⟩)).1 rfl).1,
    ((not_found_session_is_inert nativeNotFound
      { owningServerDriverHost_ := some 9, serverDriverHost_ := 9
        deactivateOnShutdown_ := false }
      (Or.inr ⟨[Op.isHMDPresent, Op.startServerDeviceProvider, Op.stop], rfl⟩)).1 rfl).2.1,
    ((not_found_session_is_inert nativeNotFound
      { owningServerDriverHost_ := some 9, serverDriverHost_ := 9
        deactivateOnShutdown_ := false }
      (Or.inr ⟨[Op.isHMDPresent, Op.startServerDeviceProvider, Op.stop], rfl⟩)).1 rfl).2.2.1⟩

end DriverWrapper

end osvr.vive
